import Mathlib

/-!
Verification of the symphony-lite quality-gate pipeline.

This file shallowly embeds the parts of the code base that the checked
properties are about:

* `src/gates/engine.py` — the gate registry (`GateRegistry`) and `evaluate`;
* `src/orchestrator.py` — the pass loop's stagnation rule in `run_workflow`;
* `src/core/runtime.py` — `ServerManager.start_all`, `stop_all`,
  `resolve_preview_surface`, `_probe_candidate` and `_DOMCountingParser`;
* `src/core/vision_result.py` — `parse_vision_payload` and its helpers.

Python values flowing through the gate engine and the vision normaliser are
dynamically typed JSON-like data; they are embedded as the inductive `PyVal`
below, with explicit `Except`-valued operations wherever the Python code
would raise (`AttributeError` on `.get` of a non-dict, `KeyError` on a
missing subscript, `TypeError` on unsupported comparisons).  Dictionary keys
are modelled as strings, which covers every dictionary the embedded code
builds or consumes (they all come from JSON-shaped payloads or literal
string keys).  Where the embedding abbreviates incidental detail (exception
message texts, `repr` of containers inside f-strings), a comment says so;
no checked property depends on those abbreviations.
-/

namespace Symphony

/-- Dynamically typed Python value as used by the gate engine and the vision
normaliser: `None`, `bool`, `int`, `float`, `str`, `list`, `dict`.
Python floats are idealised as rationals.  Dictionary keys are strings. -/
inductive PyVal where
  | none
  | bool (b : Bool)
  | int (n : Int)
  | float (q : Rat)
  | str (s : String)
  | list (xs : List PyVal)
  | dict (entries : List (String × PyVal))
deriving Repr

/-- First-match association-list lookup, modelling Python dict lookup
(Python dicts have unique keys, so first-match agrees with dict lookup). -/
def dictFind : List (String × PyVal) → String → Option PyVal
  | [], _ => Option.none
  | (k, v) :: rest, key => if k = key then some v else dictFind rest key

/-- `d.get(key, default)` on an actual dictionary. -/
def dictGetD (d : List (String × PyVal)) (key : String) (dflt : PyVal) : PyVal :=
  (dictFind d key).getD dflt

/-- `d[key] = v`: replace the entry if the key is present, else append it
(Python dicts keep insertion order, so a new key goes to the end). -/
def dictSet : List (String × PyVal) → String → PyVal → List (String × PyVal)
  | [], key, v => [(key, v)]
  | (k, w) :: rest, key, v =>
    if k = key then (k, v) :: rest else (k, w) :: dictSet rest key v

/-- A Python dictionary with string keys. -/
abbrev PyDict := List (String × PyVal)

/-- Python truthiness (`bool(v)`). -/
def pyTruthy : PyVal → Bool
  | .none => false
  | .bool b => b
  | .int n => n ≠ 0
  | .float q => q ≠ 0
  | .str s => s ≠ ""
  | .list xs => ¬ xs.isEmpty
  | .dict d => ¬ d.isEmpty

/-- Numeric view: Python treats `bool` as an `int` in arithmetic contexts. -/
def toQ : PyVal → Option Rat
  | .bool b => some (if b then 1 else 0)
  | .int n => some (n : Rat)
  | .float q => some q
  | _ => Option.none

mutual

/-- Python `==` for the value shapes the embedded code compares.  Numeric
values compare across `bool`/`int`/`float`; strings compare with strings;
`None` equals only `None`; lists and dictionaries compare structurally
element by element.  Mismatched shapes are unequal (Python `==` never
raises here). -/
def pyEqB : PyVal → PyVal → Bool
  | .none, .none => true
  | .str a, .str b => a = b
  | .bool a, .bool b => a = b
  | .bool a, .int n => (if a then (1 : Int) else 0) = n
  | .bool a, .float q => q.num = (if a then 1 else 0) ∧ q.den = 1
  | .int n, .bool b => n = (if b then (1 : Int) else 0)
  | .float q, .bool b => q.num = (if b then 1 else 0) ∧ q.den = 1
  | .int a, .int b => a = b
  | .int a, .float b => b.num = a ∧ b.den = 1
  | .float a, .int b => a.num = b ∧ a.den = 1
  | .float a, .float b => a = b
  | .list xs, .list ys => pyListEqB xs ys
  | .dict xs, .dict ys => pyDictEqB xs ys
  | _, _ => false

/-- Eementwise equality of Python lists. -/
def pyListEqB : List PyVal → List PyVal → Bool
  | [], [] => true
  | x :: xs, y :: ys => pyEqB x y && pyListEqB xs ys
  | _, _ => false

/-- Entrywise equality of Python dictionaries (insertion order is part of
the model; the embedded code never compares two dictionaries). -/
def pyDictEqB : List (String × PyVal) → List (String × PyVal) → Bool
  | [], [] => true
  | (k, v) :: xs, (l, w) :: ys => k = l && pyEqB v w && pyDictEqB xs ys
  | _, _ => false

end

/-- Three-way comparison on the idealised rationals, computed by
cross-multiplication (`x < y ↔ x.num * y.den < y.num * x.den`, the
denominators being positive). -/
def cmpQ (x y : Rat) : Ordering :=
  if x.num * (y.den : Int) < y.num * (x.den : Int) then .lt
  else if x.num * (y.den : Int) = y.num * (x.den : Int) then .eq
  else .gt

mutual

/-- Python ordering comparison.  Numbers (including `bool`) compare by
value, strings lexicographically, lists lexicographically (walking `==`
pairs, ordering the first mismatch).  Anything else — including `None` and
dictionaries — raises `TypeError`, as in Python 3. -/
def pyCmp : PyVal → PyVal → Except String Ordering
  | a, b =>
    match toQ a, toQ b with
    | some x, some y => .ok (cmpQ x y)
    | _, _ =>
      match a, b with
      | .str s, .str t => .ok (compare s t)
      | .list xs, .list ys => pyCmpList xs ys
      | _, _ => .error "TypeError: unsupported comparison"

/-- Lexicographic comparison of Python lists. -/
def pyCmpList : List PyVal → List PyVal → Except String Ordering
  | [], [] => .ok .eq
  | [], _ :: _ => .ok .lt
  | _ :: _, [] => .ok .gt
  | x :: xs, y :: ys => if pyEqB x y then pyCmpList xs ys else pyCmp x y

end

/-- Python `a >= b`. -/
def pyGE (a b : PyVal) : Except String Bool := do
  let o ← pyCmp a b
  return o ≠ .lt

/-- Python `a > b`. -/
def pyGT (a b : PyVal) : Except String Bool := do
  let o ← pyCmp a b
  return o = .gt

/-- Python `a <= b`. -/
def pyLE (a b : PyVal) : Except String Bool := do
  let o ← pyCmp a b
  return o ≠ .gt

/-- Python `a < b`. -/
def pyLT (a b : PyVal) : Except String Bool := do
  let o ← pyCmp a b
  return o = .lt

/-- `v.get(key, default)` where `v` might not be a dictionary: Python
raises `AttributeError` in that case. -/
def pyGet (v : PyVal) (key : String) (dflt : PyVal) : Except String PyVal :=
  match v with
  | .dict d => .ok (dictGetD d key dflt)
  | _ => .error "AttributeError: object has no method get"

/-- `v.get(key, default)` with an arbitrary Python value as key: a non-str
key is simply absent from a string-keyed dictionary, so the default is
returned; a non-dict receiver raises. -/
def pyGetK (v : PyVal) (key : PyVal) (dflt : PyVal) : Except String PyVal :=
  match v with
  | .dict d =>
    match key with
    | .str s => .ok (dictGetD d s dflt)
    | _ => .ok dflt
  | _ => .error "AttributeError: object has no method get"

/-- `v[key]` with a string key: dictionaries look the key up (`KeyError`
when missing); every other receiver raises `TypeError`. -/
def pySubscr (v : PyVal) (key : String) : Except String PyVal :=
  match v with
  | .dict d =>
    match dictFind d key with
    | some w => .ok w
    | Option.none => .error "KeyError"
  | _ => .error "TypeError: value is not subscriptable by str"

/-- `iter(v)`: lists yield their elements, dictionaries their keys,
strings their characters; other values raise `TypeError`. -/
def pyIter : PyVal → Except String (List PyVal)
  | .list xs => .ok xs
  | .dict d => .ok (d.map fun kv => .str kv.1)
  | .str s => .ok (s.data.map fun c => .str (String.singleton c))
  | _ => .error "TypeError: value is not iterable"

/-- Decimal digits of a fraction `num/den` (long division), up to `fuel`
digits, dropping trailing zeros once the remainder vanishes. -/
def fracDigits : Nat → Nat → Nat → String
  | _, _, 0 => ""
  | num, den, fuel + 1 =>
    if num = 0 ∨ den = 0 then ""
    else
      let n10 := num * 10
      let digit := n10 / den
      let rest := n10 % den
      toString digit ++ fracDigits rest den fuel

/-- `str(float)` for the idealised rational floats: integer part, a dot,
then the decimal expansion (truncated at 17 digits, enough for every value
a real Python float can hold in the embedded code paths). -/
def floatStr (q : Rat) : String :=
  let sign := if q < 0 then "-" else ""
  let n := q.num.natAbs
  let d := q.den
  let ip := n / d
  let frac := n % d
  let fs := fracDigits frac d 17
  sign ++ toString ip ++ "." ++ (if fs = "" then "0" else fs)

/-- `str(v)` as used inside the gate engine's f-strings.  Container
`repr`s are abbreviated (no checked property formats a container). -/
def pyStr : PyVal → String
  | .none => "None"
  | .bool true => "True"
  | .bool false => "False"
  | .int n => toString n
  | .float q => floatStr q
  | .str s => s
  | .list _ => "[python list]"
  | .dict _ => "[python dict]"

/-- Two-decimal fixed-point formatting (`f"{x:.2f}"`), rounding half to
even like IEEE formatting does.  Computed over numerator and denominator:
`fl = ⌊q * 100⌋` and the leftover fraction `r/d` is compared to `1/2` by
comparing `2 * r` to `d`. -/
def fmt2 (q : Rat) : String :=
  let n := q.num
  let d : Int := (q.den : Int)
  let fl : Int := Int.fdiv (n * 100) d
  let r : Int := n * 100 - fl * d
  let rounded : Int :=
    if d < 2 * r then fl + 1
    else if 2 * r < d then fl
    else if fl % 2 = 0 then fl else fl + 1
  let sign := if rounded < 0 then "-" else ""
  let m := rounded.natAbs
  let ip := m / 100
  let fp := m % 100
  let fpStr := if fp < 10 then "0" ++ toString fp else toString fp
  sign ++ toString ip ++ "." ++ fpStr

/-- `f"{v:.2f}"`: numeric values (including `bool`) format; anything else
raises. -/
def pyFormat2f (v : PyVal) : Except String String :=
  match toQ v with
  | some q => .ok (fmt2 q)
  | Option.none => .error "TypeError: unsupported format string"

/-!
## Gate engine (`src/gates/engine.py`)

The default registry holds eight predicates, registered in this order:
`kpi_min`, `charts_min`, `tables_min`, `filters_required`,
`form_submit_ok`, `alignment_score`, `spacing_score`, `contrast_score`.
Each maps `(expectations, observations)` to `(passed, reason)`.
-/

/-- `GateRegistry._get_capability_config`: normalise a capability
expectation value to a dictionary.  A dict is returned as is, a boolean
becomes a `required` flag, a number becomes a `min` requirement, anything
else becomes the empty configuration. -/
def get_capability_config (expectations : PyDict) (key : String) :
    Except String PyDict := do
  let capabilities := dictGetD expectations "capabilities" (.dict [])
  let value ← pyGet capabilities key (.dict [])
  match value with
  | .dict d => return d
  | .bool b => return [("required", .bool b)]
  | .int n => return [("min", .int n)]
  | .float q => return [("min", .float q)]
  | _ => return []

/-- Common body of `GateRegistry._kpi_min`, `_charts_min` and
`_tables_min`, which are textually parallel in the source except for the
capability key (`kpi_tiles`, `charts`, `tables`), which is also the key
into `observations["elements"]` and the prefix of the failure message. -/
def min_count_gate (key : String) (expectations observations : PyDict) :
    Except String (Bool × String) := do
  let required := dictGetD (← get_capability_config expectations key) "min" (.int 0)
  if pyEqB required (.int 0) then
    return (true, "")
  let actual ← pyGet (dictGetD observations "elements" (.dict [])) key (.int 0)
  if ← pyGE actual required then
    return (true, "")
  return (false, s!"{key}: expected >={pyStr required}, got {pyStr actual}")

/-- `GateRegistry._kpi_min`. -/
def kpi_min (expectations observations : PyDict) : Except String (Bool × String) :=
  min_count_gate "kpi_tiles" expectations observations

/-- `GateRegistry._charts_min`. -/
def charts_min (expectations observations : PyDict) : Except String (Bool × String) :=
  min_count_gate "charts" expectations observations

/-- `GateRegistry._tables_min`. -/
def tables_min (expectations observations : PyDict) : Except String (Bool × String) :=
  min_count_gate "tables" expectations observations

/-- `GateRegistry._filters_required`. -/
def filters_required (expectations observations : PyDict) :
    Except String (Bool × String) := do
  let required := dictGetD (← get_capability_config expectations "filters") "required" (.bool false)
  if ¬ pyTruthy required then
    return (true, "")
  let actual ← pyGet (dictGetD observations "elements" (.dict [])) "filters" (.int 0)
  if ← pyGT actual (.int 0) then
    return (true, "")
  return (false, "filters: required but not found")

/-- Is this value Python `None`? -/
def isNone : PyVal → Bool
  | .none => true
  | _ => false

/-- The failures one expected interaction contributes inside
`GateRegistry._form_submit_ok`'s loop.  An interaction whose `type` is not
`form_submit` contributes nothing; `continue` after the not-attempted and
missing-`http_status` failures is modelled by returning early with the
failures gathered so far for this interaction. -/
def interaction_failures (interactions_actual : PyVal) (interaction : PyVal) :
    Except String (List String) := do
  let t ← pySubscr interaction "type"
  if ¬ pyEqB t (.str "form_submit") then
    return []
  let interaction_id ← pySubscr interaction "id"
  let idStr := pyStr interaction_id
  let actual ← pyGetK interactions_actual interaction_id (.dict [])
  if ¬ pyTruthy (← pyGet actual "attempted" (.bool false)) then
    return [s!"{idStr}: not attempted"]
  let mut failures : List String := []
  if pyTruthy (← pyGet interaction "expect_http_2xx" (.bool false)) then
    let status ← pyGet actual "http_status" .none
    if isNone status then
      return failures ++ [s!"{idStr}: http_status not captured"]
    -- Python's chained `200 <= status < 300` evaluates left to right and
    -- short-circuits after a false left comparison.
    let inRange ← do
      if ← pyLE (.int 200) status then pyLT status (.int 300) else pure false
    if ¬ inRange then
      failures := failures ++ [s!"{idStr}: http_status {pyStr status} not 2xx"]
  if pyTruthy (← pyGet interaction "expect_success_banner" (.bool false)) then
    if ¬ pyTruthy (← pyGet actual "success_banner" (.bool false)) then
      failures := failures ++ [s!"{idStr}: success_banner not shown"]
  if pyTruthy (← pyGet actual "error_banner" (.bool false)) then
    failures := failures ++ [s!"{idStr}: error_banner shown"]
  return failures

/-- `GateRegistry._form_submit_ok`. -/
def form_submit_ok (expectations observations : PyDict) :
    Except String (Bool × String) := do
  let interactions_expected := dictGetD expectations "interactions" (.list [])
  if ¬ pyTruthy interactions_expected then
    return (true, "")
  let interactions_actual := dictGetD observations "interactions" (.dict [])
  let mut failures : List String := []
  for interaction in (← pyIter interactions_expected) do
    failures := failures ++ (← interaction_failures interactions_actual interaction)
  if ¬ failures.isEmpty then
    return (false, String.intercalate "; " failures)
  return (true, "")

/-- Common body of the three score gates: read the threshold from
`expectations["thresholds"]` with the given default, the observed value
from `observations["vision_scores"]` defaulting to `0.0`, pass when
`actual >= threshold`, else fail with the two-decimal formatted reason. -/
def score_gate (thrKey scoreKey : String) (dflt : Rat)
    (expectations observations : PyDict) : Except String (Bool × String) := do
  let threshold ← pyGet (dictGetD expectations "thresholds" (.dict [])) thrKey (.float dflt)
  let actual ← pyGet (dictGetD observations "vision_scores" (.dict [])) scoreKey (.float 0)
  if ← pyGE actual threshold then
    return (true, "")
  return (false, s!"{thrKey}: {← pyFormat2f actual} < {← pyFormat2f threshold}")

/-- `GateRegistry._alignment_score` (threshold default 0.90). -/
def alignment_score (expectations observations : PyDict) : Except String (Bool × String) :=
  score_gate "alignment_score" "alignment" (mkRat 9 10) expectations observations

/-- `GateRegistry._spacing_score` (threshold default 0.90). -/
def spacing_score (expectations observations : PyDict) : Except String (Bool × String) :=
  score_gate "spacing_score" "spacing" (mkRat 9 10) expectations observations

/-- `GateRegistry._contrast_score` (threshold default 0.75). -/
def contrast_score (expectations observations : PyDict) : Except String (Bool × String) :=
  score_gate "contrast_score" "contrast" (mkRat 3 4) expectations observations

/-- The default registry's predicates in registration (hence iteration)
order. -/
def defaultPredicates : List (PyDict → PyDict → Except String (Bool × String)) :=
  [kpi_min, charts_min, tables_min, filters_required,
   form_submit_ok, alignment_score, spacing_score, contrast_score]

/-- The default thresholds `evaluate` installs when `expectations` has no
`thresholds` key. -/
def defaultThresholds : PyVal :=
  .dict [("alignment_score", .float (mkRat 9 10)), ("spacing_score", .float (mkRat 9 10)),
         ("contrast_score", .float (mkRat 3 4))]

/-- The verdict dictionary returned by `evaluate`. -/
structure GateResult where
  passed : Bool
  failing_reasons : List String
deriving Repr, DecidableEq

/-- The predicate loop of `evaluate`: run each predicate in order and
collect `reason` whenever `not passed and reason`. -/
def runPredicates : List (PyDict → PyDict → Except String (Bool × String)) →
    PyDict → PyDict → Except String (List String)
  | [], _, _ => .ok []
  | p :: rest, expectations, observations => do
    let (passed, reason) ← p expectations observations
    let tail ← runPredicates rest expectations observations
    if ¬ passed ∧ reason ≠ "" then
      return reason :: tail
    return tail

/-- `evaluate(expectations, observations)` with the default registry.
The first component is the expectations dictionary as it stands after the
call: the source mutates its argument by installing `defaultThresholds`
when the `thresholds` key is absent, before running any predicate.  The
second component is the verdict (or the exception the predicates raise). -/
def evaluate (expectations observations : PyDict) :
    PyDict × Except String GateResult :=
  let exp2 :=
    if (dictFind expectations "thresholds").isSome then expectations
    else dictSet expectations "thresholds" defaultThresholds
  (exp2, (runPredicates defaultPredicates exp2 observations).map
    (fun rs => ⟨rs.isEmpty, rs⟩))

/-- A single expected `form_submit` interaction carrying the two
expectation flags, shaped as the goal interpreter builds them. -/
def mkFormInteraction (iid : String) (e2xx esb : Bool) : PyVal :=
  .dict [("id", .str iid), ("type", .str "form_submit"),
         ("expect_http_2xx", .bool e2xx), ("expect_success_banner", .bool esb)]

/-- One interaction observation with the captured fields (`http_status`
omitted entirely when not captured). -/
def mkFormActual (att : Bool) (st : Option Int) (sb eb : Bool) : PyVal :=
  .dict ([("attempted", .bool att)] ++
    (match st with
     | some s => [("http_status", .int s)]
     | Option.none => []) ++
    [("success_banner", .bool sb), ("error_banner", .bool eb)])

/-- Observations carrying exactly one interaction observation, keyed by
the interaction id. -/
def mkFormObservation (iid : String) (att : Bool) (st : Option Int)
    (sb eb : Bool) : PyDict :=
  [("interactions", .dict [(iid, mkFormActual att st sb eb)])]

/-!
## Orchestrator pass loop (`src/orchestrator.py`, `run_workflow`)

The loop state relevant to the stagnation rule is
`last_failures : Optional[list[str]]` (initially `None`) and
`stagnation_counter : Nat` (initially `0`).  Each pass produces a
`failing_reasons` list from gate evaluation; an empty list makes the pass
succeed and the run stop with `status="success"`.  A non-empty list is
compared to the previous pass's: equal lists increment the counter, a
differing list resets it to `0`; as soon as the counter is `>= 1` the run
stops with `status="stalled"`.  Exhausting `max_passes` yields
`status="max_passes"`.  The model below abstracts one pass to the
failing-reasons list it produces and the bounded `for` loop to the list of
those per-pass results (one entry per available pass). -/

/-- Terminal status of the pass loop. -/
inductive RunStatus where
  | success
  | stalled
  | maxPasses
deriving Repr, DecidableEq

/-- The pass loop: given `last_failures`, the stagnation counter and the
failing-reasons list of each remaining pass, return the terminal status
and how many further passes actually ran. -/
def passLoop : Option (List String) → Nat → List (List String) → RunStatus × Nat
  | _, _, [] => (.maxPasses, 0)
  | last, ctr, f :: rest =>
    if f.isEmpty then (.success, 1)
    else
      let ctr2 := if last = some f then ctr + 1 else 0
      if 1 ≤ ctr2 then (.stalled, 1)
      else
        let p := passLoop (some f) ctr2 rest
        (p.1, p.2 + 1)

/-- A whole run: `last_failures = None`, `stagnation_counter = 0`. -/
def runPassLoop (passes : List (List String)) : RunStatus × Nat :=
  passLoop Option.none 0 passes

/-!
## Service lifecycle (`src/core/runtime.py`, `ServerManager.start_all`)

`start_all` spawns each configured command in turn, appending the spawned
process to `self.running`, and, when the command declares a port, waits
for the port inside a `try` whose handler calls `self.stop_all()` before
re-raising.  `stop_all` terminates every process in `self.running`.  The
`subprocess.Popen` call itself (and the pre-spawn command-list handling)
is *not* inside that `try`.  The model abstracts a command to whether its
spawn succeeds and whether its port wait succeeds, and tracks the spawned,
still-running processes by numeric ids. -/

/-- One start command, abstracted to the outcomes that matter for the
process-lifecycle property. -/
structure StartCmd where
  /-- `subprocess.Popen` returns without raising. -/
  spawnOk : Bool
  /-- the command declares a `port` to wait for -/
  hasPort : Bool
  /-- the port wait succeeds (the process neither exits early nor times
  out before the port opens) -/
  portReady : Bool
deriving Repr, DecidableEq

/-- The spawn loop of `start_all`.  `running` is the list of processes
spawned so far and still alive.  On success it returns the running
processes; on failure it returns, as the error payload, the processes
still alive at the moment the exception propagates out of `start_all`:
a failed port wait runs `stop_all` first (leaving none), while a failed
spawn propagates immediately with `running` untouched. -/
def startAllGo : List StartCmd → List Nat → Nat → Except (List Nat) (List Nat)
  | [], running, _ => .ok running
  | c :: rest, running, pid =>
    if ¬ c.spawnOk then .error running
    else
      let running2 := running ++ [pid]
      if c.hasPort && ¬ c.portReady then .error []
      else startAllGo rest running2 (pid + 1)

/-- `start_all` on a fresh `ServerManager` (`self.running == []`). -/
def startAll (cmds : List StartCmd) : Except (List Nat) (List Nat) :=
  startAllGo cmds [] 0

/-!
## Preview-surface resolution (`src/core/runtime.py`)

`resolve_preview_surface` probes every candidate URL and then selects
among the resulting `ServerProbe`s.  The model takes the probe list as
input (the probing itself is network I/O) and mirrors the selection
logic, including hint matching, fallback to a blank surface with captured
artifacts, and the terminal no-surface message. -/

/-- `ServerProbe` (`src/core/runtime.py`). -/
structure ServerProbe where
  url : String
  kind : String
  status_code : Option Int := Option.none
  is_blank : Bool := false
  node_count : Nat := 0
  body : Option String := Option.none
  error : Option String := Option.none
deriving Repr, DecidableEq

/-- `ServerSelection` (`src/core/runtime.py`).  `artifacts` is the
path map produced for the blank fallback. -/
structure ServerSelection where
  url : Option String
  probe : Option ServerProbe
  fallback_used : Bool := false
  message : Option String := Option.none
  artifacts : List (String × String) := []
deriving Repr, DecidableEq

/-- `probe.status_code and 200 <= probe.status_code < 300 and not
probe.error`: the healthiness filter of `resolve_preview_surface`.
(`status_code` of `0` is falsy in Python, and an empty error string is
falsy too.) -/
def isHealthy (p : ServerProbe) : Bool :=
  match p.status_code with
  | some s => s ≠ 0 && 200 ≤ s && s < 300 && ¬ (p.error.getD "") ≠ ""
  | Option.none => false

/-- `needle in hay` on Python strings: substring containment. -/
def containsSub (hay needle : String) : Bool :=
  decide (needle.data <:+: hay.data)

/-- The local `matches_hints` of `resolve_preview_surface`: with no hints
every probe matches; otherwise a selector matching the body verbatim or a
keyword matching it case-insensitively qualifies the probe. -/
def matches_hints (selectors keywords : List String) (p : ServerProbe) : Bool :=
  if selectors.isEmpty && keywords.isEmpty then true
  else
    let body := p.body.getD ""
    if ¬ selectors.isEmpty && selectors.any (fun sel => containsSub body sel) then true
    else if ¬ keywords.isEmpty &&
        keywords.any (fun kw => containsSub body.toLower kw.toLower) then true
    else false

/-- `_slugify`: alphanumeric characters kept, everything else replaced by
an underscore, truncated to 60 characters. -/
def slugify (value : String) : String :=
  ((value.data.map (fun ch => if ch.isAlphanum then ch else '_')).take 60).asString

/-- `_capture_blank_artifacts`: the artifact path map written for a blank
probe (the file writes themselves are I/O; the model keeps the paths and
keys). -/
def capture_blank_artifacts (run_id : String) (p : ServerProbe) :
    List (String × String) :=
  let dir := "artifacts/" ++ run_id ++ "/servers/"
  let slug := slugify p.url
  [("dom", dir ++ slug ++ "_dom.html"),
   ("console", dir ++ slug ++ "_console.log"),
   ("network", dir ++ slug ++ "_network.har")]

/-- Does `preferred_kind` select this probe?  (`preferred_kind and
probe.kind == preferred_kind`: an absent or empty preferred kind selects
nothing.) -/
def prefMatch (preferred_kind : Option String) (p : ServerProbe) : Bool :=
  match preferred_kind with
  | some k => k ≠ "" && p.kind = k
  | Option.none => false

/-- `resolve_preview_surface`, from the probe list: healthy probes are
split into non-blank and blank; the chosen probe is the first non-blank
one matching the preferred kind and the hints, else the first non-blank
one matching the hints, else the first non-blank one; with no non-blank
candidate the first blank one is selected as a fallback with diagnostic
artifacts; with no healthy candidate at all the selection carries no URL
and reports the first probe error (or a generic message). -/
def resolve_preview_surface (run_id : String) (preferred_kind : Option String)
    (selectors keywords : List String) (probes : List ServerProbe) :
    ServerSelection :=
  let healthy := probes.filter isHealthy
  let non_blank := healthy.filter (fun p => !p.is_blank)
  let blank := healthy.filter (fun p => p.is_blank)
  let preferred_candidates :=
    (non_blank.filter (prefMatch preferred_kind)).filter
      (matches_hints selectors keywords)
  let chosen :=
    match preferred_candidates.head? with
    | some p => some p
    | Option.none =>
      match (non_blank.filter (matches_hints selectors keywords)).head? with
      | some p => some p
      | Option.none => non_blank.head?
  match chosen with
  | some p => { url := some p.url, probe := some p }
  | Option.none =>
    match blank.head? with
    | some blank_probe =>
      { url := some blank_probe.url, probe := some blank_probe,
        fallback_used := true,
        message := some "Primary surface returned a blank DOM. Captured diagnostics and continuing with fallback.",
        artifacts := capture_blank_artifacts run_id blank_probe }
    | Option.none =>
      match probes.find? (fun p => p.error.getD "" != "") with
      | some first_error =>
        { url := Option.none, probe := Option.none,
          message := some ("Failed to reach " ++ first_error.url ++ ": " ++
            (first_error.error.getD "")) }
      | Option.none =>
        { url := Option.none, probe := Option.none,
          message := some "No responsive preview surface detected." }

/-!
## Blank classification (`src/core/runtime.py`, `_probe_candidate` and
`_DOMCountingParser`)

For a 2xx response, `_probe_candidate` feeds the body through
`_DOMCountingParser`, whose `handle_starttag` increments `node_count` for
every start tag with a non-empty tag name, and classifies:
`is_blank = not body.strip() or parser.node_count <= 1`.
The model represents the parse events the body produces (one
`handle_starttag` call per element start tag, nested elements included)
and, for relating the count to document structure, the element tree the
markup denotes. -/

/-- One `HTMLParser` callback event produced by feeding the body. -/
inductive HtmlEvent where
  | startTag (tag : String)
  | endTag (tag : String)
  | textData (s : String)
deriving Repr, DecidableEq

/-- `_DOMCountingParser.node_count` after feeding: the number of start
tags with a non-empty name (`if tag: self.node_count += 1`). -/
def domNodeCount (events : List HtmlEvent) : Nat :=
  events.countP fun e =>
    match e with
    | .startTag t => t ≠ ""
    | _ => false

/-- An HTML node: an element with children, or character data. -/
inductive HtmlNode where
  | element (tag : String) (children : List HtmlNode)
  | textNode (s : String)
deriving Repr

mutual

/-- The parser events a node produces when fed. -/
def nodeEvents : HtmlNode → List HtmlEvent
  | .element tag children => .startTag tag :: forestEvents children ++ [.endTag tag]
  | .textNode s => [.textData s]

/-- The parser events a forest of sibling nodes produces. -/
def forestEvents : List HtmlNode → List HtmlEvent
  | [] => []
  | n :: rest => nodeEvents n ++ forestEvents rest

end

mutual

/-- Total number of elements in a node, nested elements included. -/
def nodeElements : HtmlNode → Nat
  | .element _ children => 1 + forestElements children
  | .textNode _ => 0

/-- Total number of elements in a forest, nested elements included. -/
def forestElements : List HtmlNode → Nat
  | [] => 0
  | n :: rest => nodeElements n + forestElements rest

end

/-- Number of top-level element nodes of a forest. -/
def topLevelElements : List HtmlNode → Nat
  | [] => 0
  | .element _ _ :: rest => 1 + topLevelElements rest
  | .textNode _ :: rest => topLevelElements rest

mutual

/-- Every element of the markup has a non-empty tag name (which is what
`HTMLParser` guarantees for the events it emits). -/
def wfNode : HtmlNode → Bool
  | .element tag children => tag ≠ "" && wfForest children
  | .textNode _ => true

/-- `wfNode` on every node of a forest. -/
def wfForest : List HtmlNode → Bool
  | [] => true
  | n :: rest => wfNode n && wfForest rest

end

/-- The classification `_probe_candidate` computes for a healthy response:
`is_blank = not body.strip() or parser.node_count <= 1`, with
`strippedEmpty` standing for `not body.strip()` and `events` for the
callback sequence feeding the body produces. -/
def probeIsBlank (strippedEmpty : Bool) (events : List HtmlEvent) : Bool :=
  strippedEmpty || domNodeCount events ≤ 1

/-- The classification as the specification words it: blank means an
empty (whitespace-only) body or markup containing a single *top-level*
element node.  Stated for comparison with `probeIsBlank`. -/
def specBlank (strippedEmpty : Bool) (forest : List HtmlNode) : Bool :=
  strippedEmpty || topLevelElements forest = 1

/-!
## Vision payload normalisation (`src/core/vision_result.py`)

`parse_vision_payload` coerces the raw agent payload to a dictionary via
`_coerce_dict` (which feeds string payloads through `json.loads`, with a
brace-slice retry) and then normalises every field with isinstance
checks.  `json.loads` is embedded as a recursive-descent JSON parser over
the characters; a parse failure models `JSONDecodeError`.  Embedding
notes: warning texts abbreviate the Python exception details they embed,
and the numeric grammar idealises floats as rationals (so the JSON
`Infinity`/`NaN` extensions and `float("inf")` are out of the model). -/

/-- The opening-brace character, `chr(123)`. -/
def lbraceC : Char := Char.ofNat 123

/-- The closing-brace character, `chr(125)`. -/
def rbraceC : Char := Char.ofNat 125

/-- JSON insignificant whitespace. -/
def jsonWs (c : Char) : Bool :=
  c = ' ' || c = '\t' || c = '\n' || c = '\r'

/-- Drop leading JSON whitespace. -/
def skipWs : List Char → List Char
  | [] => []
  | c :: rest => if jsonWs c then skipWs rest else c :: rest

/-- Numeric value of a hexadecimal digit, over the character codes:
digits occupy codes 48-57, the lowercase letters a-f codes 97-102, the
uppercase letters A-F codes 65-70. -/
def hexVal (c : Char) : Option Nat :=
  let n := c.toNat
  if 48 ≤ n ∧ n ≤ 57 then some (n - 48)
  else if 97 ≤ n ∧ n ≤ 102 then some (n - 87)
  else if 65 ≤ n ∧ n ≤ 70 then some (n - 55)
  else Option.none

/-- Parse the remainder of a JSON string literal (the opening quote
already consumed), handling the escape sequences. -/
def parseJsonStringRest : List Char → List Char → Option (String × List Char)
  | acc, '\"' :: rest => some ((acc.reverse).asString, rest)
  | acc, '\\' :: e :: rest =>
    match e with
    | '\"' => parseJsonStringRest ('\"' :: acc) rest
    | '\\' => parseJsonStringRest ('\\' :: acc) rest
    | '/' => parseJsonStringRest ('/' :: acc) rest
    | 'b' => parseJsonStringRest (Char.ofNat 8 :: acc) rest
    | 'f' => parseJsonStringRest (Char.ofNat 12 :: acc) rest
    | 'n' => parseJsonStringRest ('\n' :: acc) rest
    | 'r' => parseJsonStringRest ('\r' :: acc) rest
    | 't' => parseJsonStringRest ('\t' :: acc) rest
    | 'u' =>
      match rest with
      | h1 :: h2 :: h3 :: h4 :: rest2 =>
        match hexVal h1, hexVal h2, hexVal h3, hexVal h4 with
        | some a, some b, some c, some d =>
          parseJsonStringRest (Char.ofNat (((a * 16 + b) * 16 + c) * 16 + d) :: acc) rest2
        | _, _, _, _ => Option.none
      | _ => Option.none
    | _ => Option.none
  | acc, c :: rest =>
    if c = '\\' || c = '\"' then Option.none else parseJsonStringRest (c :: acc) rest
  | _, [] => Option.none

/-- Take a maximal run of decimal digits. -/
def takeDigits : List Char → List Char × List Char
  | [] => ([], [])
  | c :: rest =>
    if c.isDigit then
      let (ds, r) := takeDigits rest
      (c :: ds, r)
    else ([], c :: rest)

/-- Natural-number value of a digit run. -/
def digitsVal (ds : List Char) : Nat :=
  ds.foldl (fun acc c => acc * 10 + (c.toNat - '0'.toNat)) 0

/-- Parse a JSON number (integer part mandatory, optional fraction and
exponent).  An integer literal yields a Python `int`, anything with a
fraction or exponent a Python `float`. -/
def parseJsonNumber (cs : List Char) : Option (PyVal × List Char) :=
  let (neg, cs1) := match cs with
    | '-' :: rest => (true, rest)
    | _ => (false, cs)
  let (intDs, cs2) := takeDigits cs1
  if intDs.isEmpty then Option.none
  else if intDs.length > 1 && intDs.head? = some '0' then Option.none
  else
    let intPart : Nat := digitsVal intDs
    let fracRes : Option (Option (List Char) × List Char) :=
      match cs2 with
      | '.' :: rest =>
        let (ds, r) := takeDigits rest
        if ds.isEmpty then Option.none else some (some ds, r)
      | _ => some (Option.none, cs2)
    match fracRes with
    | Option.none => Option.none
    | some (fracDs, cs3) =>
      let expRes : Option (Option Int × List Char) :=
        match cs3 with
        | 'e' :: rest | 'E' :: rest =>
          let (esign, rest2) := match rest with
            | '-' :: r => ((-1 : Int), r)
            | '+' :: r => ((1 : Int), r)
            | _ => ((1 : Int), rest)
          let (eds, r) := takeDigits rest2
          if eds.isEmpty then Option.none else some (some (esign * digitsVal eds), r)
        | _ => some (Option.none, cs3)
      match expRes with
      | Option.none => Option.none
      | some (expPart, cs4) =>
        let base : Rat := (intPart : Rat) +
          (match fracDs with
           | some ds => (digitsVal ds : Rat) / ((10 : Rat) ^ ds.length)
           | Option.none => 0)
        let signed : Rat := if neg then -base else base
        match fracDs, expPart with
        | Option.none, Option.none =>
          some (.int (if neg then -(intPart : Int) else (intPart : Int)), cs4)
        | _, Option.none => some (.float signed, cs4)
        | _, some e =>
          let scaled : Rat :=
            if 0 ≤ e then signed * (10 : Rat) ^ e.natAbs
            else signed / (10 : Rat) ^ e.natAbs
          some (.float scaled, cs4)

mutual

/-- Recursive-descent JSON value parser (`json.loads` grammar). -/
def parseJsonValue : Nat → List Char → Option (PyVal × List Char)
  | 0, _ => Option.none
  | fuel + 1, cs =>
    match skipWs cs with
    | [] => Option.none
    | c :: rest =>
      if c = '\"' then
        match parseJsonStringRest [] rest with
        | some (s, r) => some (.str s, r)
        | Option.none => Option.none
      else if c = '[' then parseJsonArray fuel rest
      else if c = lbraceC then parseJsonObject fuel rest
      else if c = 't' then
        match rest with
        | 'r' :: 'u' :: 'e' :: r => some (.bool true, r)
        | _ => Option.none
      else if c = 'f' then
        match rest with
        | 'a' :: 'l' :: 's' :: 'e' :: r => some (.bool false, r)
        | _ => Option.none
      else if c = 'n' then
        match rest with
        | 'u' :: 'l' :: 'l' :: r => some (.none, r)
        | _ => Option.none
      else parseJsonNumber (c :: rest)

/-- Parse the items of a JSON array, the `[` already consumed. -/
def parseJsonArray : Nat → List Char → Option (PyVal × List Char)
  | 0, _ => Option.none
  | fuel + 1, cs =>
    match skipWs cs with
    | ']' :: rest => some (.list [], rest)
    | cs1 =>
      match parseJsonValue fuel cs1 with
      | some (v, r) =>
        match parseJsonItems fuel r [v] with
        | some (vs, r2) => some (.list vs, r2)
        | Option.none => Option.none
      | Option.none => Option.none

/-- Remaining comma-separated array items up to `]`. -/
def parseJsonItems : Nat → List Char → List PyVal → Option (List PyVal × List Char)
  | 0, _, _ => Option.none
  | fuel + 1, cs, acc =>
    match skipWs cs with
    | ']' :: rest => some (acc.reverse, rest)
    | ',' :: rest =>
      match parseJsonValue fuel rest with
      | some (v, r) => parseJsonItems fuel r (v :: acc)
      | Option.none => Option.none
    | _ => Option.none

/-- Parse a JSON object, the opening brace already consumed. -/
def parseJsonObject : Nat → List Char → Option (PyVal × List Char)
  | 0, _ => Option.none
  | fuel + 1, cs =>
    match skipWs cs with
    | c :: rest =>
      if c = rbraceC then some (.dict [], rest)
      else if c = '\"' then
        match parseJsonMember fuel (c :: rest) [] with
        | some (d, r) => some (.dict d, r)
        | Option.none => Option.none
      else Option.none
    | [] => Option.none

/-- One `"key": value` member followed by the rest of the object.  The
accumulator is updated with `dictSet`, which replaces the value of a
repeated key in place — the behaviour of `json.loads` on duplicate object
keys. -/
def parseJsonMember : Nat → List Char → PyDict → Option (PyDict × List Char)
  | 0, _, _ => Option.none
  | fuel + 1, cs, acc =>
    match skipWs cs with
    | '\"' :: rest =>
      match parseJsonStringRest [] rest with
      | some (k, r) =>
        match skipWs r with
        | ':' :: r2 =>
          match parseJsonValue fuel r2 with
          | some (v, r3) =>
            match skipWs r3 with
            | ',' :: r4 => parseJsonMember fuel r4 (dictSet acc k v)
            | c :: r4 =>
              if c = rbraceC then some (dictSet acc k v, r4)
              else Option.none
            | [] => Option.none
          | Option.none => Option.none
        | _ => Option.none
      | Option.none => Option.none
    | _ => Option.none

end

/-- `json.loads`: parse one JSON document with nothing but whitespace
after it. -/
def jsonLoads (s : String) : Option PyVal :=
  match parseJsonValue (s.length + 1) s.data with
  | some (v, rest) => if (skipWs rest).isEmpty then some v else Option.none
  | Option.none => Option.none

/-- `s.find(c)`: index of the first occurrence, `None` standing in for
Python's `-1`. -/
def strFind (s : String) (c : Char) : Option Nat :=
  s.data.findIdx? (· = c)

/-- `s.rfind(c)`: index of the last occurrence. -/
def strRFind (s : String) (c : Char) : Option Nat :=
  match (s.data.reverse).findIdx? (· = c) with
  | some i => some (s.data.length - 1 - i)
  | Option.none => Option.none

/-- `_coerce_dict`: a dict passes through; a string goes through
`json.loads`, retrying on the longest brace-delimited slice after a parse
failure; everything else (`to_dict` objects aside, which are outside the
JSON-value model) coerces to the empty dict.  The returned value is
whatever `json.loads` produced — the source does not check that it is a
dictionary. -/
def coerce_dict : PyVal → PyVal × List String
  | .dict d => (.dict d, [])
  | .str s =>
    match jsonLoads s with
    | some v => (v, [])
    | Option.none =>
      let warnings := ["JSON decode failed: payload is not valid JSON"]
      match strFind s lbraceC, strRFind s rbraceC with
      | some start, some stop =>
        if stop > start then
          let slice := ((s.data.drop start).take (stop + 1 - start)).asString
          match jsonLoads slice with
          | some v => (v, warnings)
          | Option.none => (.dict [], warnings ++ ["Fallback JSON extraction failed"])
        else (.dict [], warnings)
      | _, _ => (.dict [], warnings)
  | _ => (.dict [], [])

/-- `float(s)` on a string: optional sign, digits with an optional dot on
either side, optional exponent.  (`inf`/`nan` are outside the rational
idealisation.) -/
def parseFloatStr (s : String) : Option Rat :=
  let cs := s.trim.data
  let (neg, cs1) := match cs with
    | '-' :: r => (true, r)
    | '+' :: r => (false, r)
    | _ => (false, cs)
  let (intDs, cs2) := takeDigits cs1
  let (fracDs, cs3) := match cs2 with
    | '.' :: r => takeDigits r
    | _ => ([], cs2)
  if intDs.isEmpty ∧ fracDs.isEmpty then Option.none
  else
    let expRes : Option (Int × List Char) :=
      match cs3 with
      | 'e' :: r | 'E' :: r =>
        let (es, r2) := match r with
          | '-' :: rr => ((-1 : Int), rr)
          | '+' :: rr => ((1 : Int), rr)
          | _ => ((1 : Int), r)
        let (eds, r3) := takeDigits r2
        if eds.isEmpty then Option.none else some (es * digitsVal eds, r3)
      | _ => some (0, cs3)
    match expRes with
    | Option.none => Option.none
    | some (e, cs4) =>
      if ¬ cs4.isEmpty then Option.none
      else
        let base : Rat := (digitsVal intDs : Rat) +
          (digitsVal fracDs : Rat) / ((10 : Rat) ^ fracDs.length)
        let signed := if neg then -base else base
        some (if 0 ≤ e then signed * (10 : Rat) ^ e.natAbs
              else signed / (10 : Rat) ^ e.natAbs)

/-- `_safe_float`: `None` stays `None`; numbers (and `bool`, which is an
`int` in Python) convert; a string with non-whitespace content parses as
a Python float literal; everything else (and every parse failure) is
`None`. -/
def safe_float : PyVal → Option Rat
  | .none => Option.none
  | .bool b => some (if b then 1 else 0)
  | .int n => some (n : Rat)
  | .float q => some q
  | .str s => if s.trim ≠ "" then parseFloatStr s else Option.none
  | _ => Option.none

/-- `_as_str`: strings pass through, `None` stays `None`, everything else
is `str(value)`. -/
def as_str : PyVal → Option String
  | .str s => some s
  | .none => Option.none
  | v => some (pyStr v)

/-- `_as_str(x) or dflt`: Python `or` also replaces the empty string. -/
def strOr (o : Option String) (dflt : String) : String :=
  match o with
  | some s => if s = "" then dflt else s
  | Option.none => dflt

/-- `VisionInteraction` (`src/core/vision_result.py`). -/
structure VisionInteraction where
  action : String
  selector : Option String := Option.none
  ok : Bool := false
  notes : Option String := Option.none
  id : Option String := Option.none
  attempted : Option Bool := Option.none
deriving Repr, DecidableEq

/-- `VisionIssue`. -/
structure VisionIssue where
  id : String
  status : String
  detail : Option String := Option.none
deriving Repr, DecidableEq

/-- `VisionSuggestion`. -/
structure VisionSuggestion where
  area : Option String := Option.none
  change : Option String := Option.none
deriving Repr, DecidableEq

/-- `VisionResult`, with the idealised score map (the three score slots,
each an optional rational). -/
structure VisionResult where
  version : String
  target_url : String
  mode : String
  scores : List (String × Option Rat) := []
  accessibility : PyVal := .dict []
  interactions : List VisionInteraction := []
  issues : List VisionIssue := []
  suggestions : List VisionSuggestion := []
  artifacts : PyVal := .dict []
  raw : PyVal := .dict []
deriving Repr

/-- `_default_result`. -/
def default_result (url mode : String) (error : Option String) : VisionResult :=
  { version := "1.0", target_url := url, mode := mode,
    scores := [("alignment", Option.none), ("spacing", Option.none),
               ("contrast", Option.none)],
    accessibility := .dict [("violations", .none), ("target", .str "AA")],
    issues := match error with
      | some e => [{ id := "vision_error", status := "fail", detail := some e }]
      | Option.none => [] }

/-- `VisionInteraction.from_payload`. -/
def interaction_from_payload (d : PyDict) : VisionInteraction :=
  let attempted := dictGetD d "attempted" .none
  let attempted_flag :=
    if ¬ isNone attempted then pyTruthy attempted
    else pyTruthy (dictGetD d "ok" (.bool false))
  { action := strOr (as_str (dictGetD d "action" .none)) "unknown",
    selector := as_str (dictGetD d "selector" .none),
    ok := pyTruthy (dictGetD d "ok" (.bool false)),
    notes := as_str (dictGetD d "notes" .none),
    id := as_str (dictGetD d "id" .none),
    attempted := some attempted_flag }

/-- `VisionIssue.from_payload`. -/
def issue_from_payload (d : PyDict) : VisionIssue :=
  { id := strOr (as_str (dictGetD d "id" .none)) "unspecified_issue",
    status := strOr (as_str (dictGetD d "status" .none)) "unknown",
    detail := as_str (dictGetD d "detail" .none) }

/-- `VisionSuggestion.from_payload`. -/
def suggestion_from_payload (d : PyDict) : VisionSuggestion :=
  { area := as_str (dictGetD d "area" .none),
    change := as_str (dictGetD d "change" .none) }

/-- `data.get(key) or []` followed by the iterability check and the
`isinstance(item, dict)` filter: only an actual list can contribute
dictionary items (a dict iterates its string keys, strings and bytes are
excluded explicitly, anything else is not iterable). -/
def collectDicts (v : PyVal) : List PyDict :=
  let v := if pyTruthy v then v else .list []
  match v with
  | .list xs => xs.filterMap fun x =>
      match x with
      | .dict d => some d
      | _ => Option.none
  | _ => []

/-- `_VALID_MODES`. -/
def validModes : List String := ["visual", "hybrid", "qa"]

/-- `parse_vision_payload(payload, url=url, mode=mode)`.  The `Except`
error is the exception the Python code raises on that path (the
`data.get` calls assume `_coerce_dict` returned a dictionary). -/
def parse_vision_payload (payload : PyVal) (url mode : String) :
    Except String (VisionResult × List String) := do
  let (data, warnings) := coerce_dict payload
  if ¬ pyTruthy data then
    return (default_result url mode (some "Empty response from Vision agent"), warnings)
  let version := strOr (as_str (← pyGet data "version" .none)) "1.0"
  let target_url := strOr (as_str (← pyGet data "target_url" .none)) url
  let payload_mode := (strOr (as_str (← pyGet data "mode" .none)) mode).toLower
  -- the source quotes the unknown mode in the warning; quoting omitted
  let (payload_mode, warnings) :=
    if payload_mode ∈ validModes then (payload_mode, warnings)
    else (mode, warnings ++ [s!"Unknown vision mode {payload_mode}, defaulting to {mode}"])
  let scores_data ← pyGet data "scores" .none
  let sd : PyDict := match scores_data with
    | .dict d => d
    | _ => []
  let scores := [("alignment", safe_float (dictGetD sd "alignment" .none)),
                 ("spacing", safe_float (dictGetD sd "spacing" .none)),
                 ("contrast", safe_float (dictGetD sd "contrast" .none))]
  let accessibility ← pyGet data "accessibility" .none
  let accessibility := match accessibility with
    | .dict d => PyVal.dict d
    | _ => PyVal.dict [("violations", .none), ("target", .str "AA")]
  let interactions := (collectDicts (← pyGet data "interactions" .none)).map interaction_from_payload
  let issues := (collectDicts (← pyGet data "issues" .none)).map issue_from_payload
  let suggestions := (collectDicts (← pyGet data "suggestions" .none)).map suggestion_from_payload
  let artifacts ← pyGet data "artifacts" .none
  let artifacts := match artifacts with
    | .dict d => PyVal.dict d
    | _ => PyVal.dict []
  return ({ version := version, target_url := target_url, mode := payload_mode,
            scores := scores, accessibility := accessibility,
            interactions := interactions, issues := issues,
            suggestions := suggestions, artifacts := artifacts, raw := data },
          warnings)

/-!
## Helper lemmas
-/

@[simp]
theorem except_bind_ok {ε α β : Type} (a : α) (f : α → Except ε β) :
    (Except.ok a : Except ε α) >>= f = f a := rfl

@[simp]
theorem except_bind_error {ε α β : Type} (e : ε) (f : α → Except ε β) :
    (Except.error e : Except ε α) >>= f = .error e := rfl

@[simp]
theorem except_pure_eq {ε α : Type} (a : α) :
    (pure a : Except ε α) = .ok a := rfl

theorem cmpQ_ne_lt_iff (x y : Rat) : cmpQ x y ≠ .lt ↔ y ≤ x := by
  unfold cmpQ
  by_cases h : x.num * (y.den : Int) < y.num * (x.den : Int)
  · simp [h, not_le.mpr (Rat.lt_def.mpr h)]
  · simp [h, le_of_not_lt (fun hl => h (Rat.lt_def.mp hl))]

/-- `pyGE` on two idealised floats decides `t ≤ a`. -/
theorem pyGE_float (a t : Rat) :
    pyGE (.float a) (.float t) = .ok (decide (t ≤ a)) := by
  show Except.ok (decide (cmpQ a t ≠ .lt)) = _
  rw [decide_eq_decide.mpr (cmpQ_ne_lt_iff a t)]

/-!
## Claim C10
-/

/-- Claim C10: `_get_capability_config` accepts shorthand capability
values beyond the documented object shape: a boolean value is treated
exactly as a `required` flag, a numeric value (int or float) exactly as a
`min` requirement, and any other non-dict value as no requirement at all,
which makes the capability gates pass trivially. -/
theorem capability_shorthand_normalisation
    (exp caps : PyDict) (key : String)
    (hcaps : dictGetD exp "capabilities" (.dict []) = .dict caps) :
    (∀ b : Bool, dictGetD caps key (.dict []) = .bool b →
        get_capability_config exp key = .ok [("required", .bool b)]) ∧
    (∀ n : Int, dictGetD caps key (.dict []) = .int n →
        get_capability_config exp key = .ok [("min", .int n)]) ∧
    (∀ q : Rat, dictGetD caps key (.dict []) = .float q →
        get_capability_config exp key = .ok [("min", .float q)]) ∧
    (∀ s : String, dictGetD caps key (.dict []) = .str s →
        get_capability_config exp key = .ok []) ∧
    (dictGetD caps key (.dict []) = .none →
        get_capability_config exp key = .ok []) ∧
    (∀ xs : List PyVal, dictGetD caps key (.dict []) = .list xs →
        get_capability_config exp key = .ok []) ∧
    (∀ obs : PyDict, get_capability_config exp key = .ok [] →
        min_count_gate key exp obs = .ok (true, "")) ∧
    (∀ obs : PyDict, get_capability_config exp "filters" = .ok [] →
        filters_required exp obs = .ok (true, "")) := by
  refine ⟨?_, ?_, ?_, ?_, ?_, ?_, ?_, ?_⟩
  · intro b h; simp [get_capability_config, pyGet, hcaps, h]
  · intro n h; simp [get_capability_config, pyGet, hcaps, h]
  · intro q h; simp [get_capability_config, pyGet, hcaps, h]
  · intro s h; simp [get_capability_config, pyGet, hcaps, h]
  · intro h; simp [get_capability_config, pyGet, hcaps, h]
  · intro xs h; simp [get_capability_config, pyGet, hcaps, h]
  · intro obs h; simp [min_count_gate, h, dictGetD, dictFind, pyEqB]
  · intro obs h; simp [filters_required, h, dictGetD, dictFind, pyTruthy]

/-- Witness for C10 at a concrete expectations dictionary: the boolean
shorthand `capabilities.kpi_tiles = True` normalises to a required
flag. -/
theorem capability_shorthand_normalisation_witness :
    get_capability_config [("capabilities", .dict [("kpi_tiles", .bool true)])] "kpi_tiles" =
      .ok [("required", .bool true)] :=
  (capability_shorthand_normalisation
    [("capabilities", .dict [("kpi_tiles", .bool true)])]
    [("kpi_tiles", .bool true)] "kpi_tiles" rfl).1 true rfl

/-!
## Claim C9
-/

/-- The behaviour of a score gate when the thresholds and vision-scores
entries are well-typed: pass exactly when the observed value reaches the
threshold, otherwise fail with the two-decimal formatted reason. -/
theorem score_gate_spec (thrKey scoreKey : String) (dflt : Rat)
    (exp obs thr vs : PyDict) (t a : Rat)
    (hthr : dictGetD exp "thresholds" (.dict []) = .dict thr)
    (hvs : dictGetD obs "vision_scores" (.dict []) = .dict vs)
    (ht : dictGetD thr thrKey (.float dflt) = .float t)
    (ha : dictGetD vs scoreKey (.float 0) = .float a) :
    score_gate thrKey scoreKey dflt exp obs =
      if t ≤ a then .ok (true, "")
      else .ok (false, s!"{thrKey}: {fmt2 a} < {fmt2 t}") := by
  simp only [score_gate, hthr, hvs, pyGet, ht, ha, except_bind_ok, pyGE_float,
    pyFormat2f, toQ]
  by_cases hta : t ≤ a <;> simp [hta]

/-- Claim C9: each score-threshold gate (alignment, spacing, contrast)
passes iff the observed score, taken as 0.0 when absent, is at least the
corresponding threshold from `expectations.thresholds` (defaults 0.90,
0.90 and 0.75); a score equal to its threshold passes, and a lower score
fails with the reason `<metric>: <observed> < <threshold>` carrying both
values at two decimals. -/
theorem score_threshold_gates
    (exp obs thr vs : PyDict)
    (hthr : dictGetD exp "thresholds" (.dict []) = .dict thr)
    (hvs : dictGetD obs "vision_scores" (.dict []) = .dict vs) :
    (∀ t a : Rat, dictGetD thr "alignment_score" (.float (mkRat 9 10)) = .float t →
       dictGetD vs "alignment" (.float 0) = .float a →
       alignment_score exp obs =
         if t ≤ a then .ok (true, "")
         else .ok (false, s!"alignment_score: {fmt2 a} < {fmt2 t}")) ∧
    (∀ t a : Rat, dictGetD thr "spacing_score" (.float (mkRat 9 10)) = .float t →
       dictGetD vs "spacing" (.float 0) = .float a →
       spacing_score exp obs =
         if t ≤ a then .ok (true, "")
         else .ok (false, s!"spacing_score: {fmt2 a} < {fmt2 t}")) ∧
    (∀ t a : Rat, dictGetD thr "contrast_score" (.float (mkRat 3 4)) = .float t →
       dictGetD vs "contrast" (.float 0) = .float a →
       contrast_score exp obs =
         if t ≤ a then .ok (true, "")
         else .ok (false, s!"contrast_score: {fmt2 a} < {fmt2 t}")) := by
  refine ⟨?_, ?_, ?_⟩ <;> intro t a h1 h2
  · simpa [alignment_score] using
      score_gate_spec "alignment_score" "alignment" (mkRat 9 10) exp obs thr vs t a hthr hvs h1 h2
  · simpa [spacing_score] using
      score_gate_spec "spacing_score" "spacing" (mkRat 9 10) exp obs thr vs t a hthr hvs h1 h2
  · simpa [contrast_score] using
      score_gate_spec "contrast_score" "contrast" (mkRat 3 4) exp obs thr vs t a hthr hvs h1 h2

/-- Witness for C9: with threshold 0.90, an observed 0.89 fails with the
formatted reason (carrying `0.89` and `0.90`), and an observed score of
exactly 0.90 passes. -/
theorem score_threshold_gates_witness :
    alignment_score [("thresholds", .dict [("alignment_score", .float (mkRat 9 10))])]
        [("vision_scores", .dict [("alignment", .float (mkRat 89 100))])] =
      .ok (false, "alignment_score: 0.89 < 0.90") ∧
    alignment_score [("thresholds", .dict [("alignment_score", .float (mkRat 9 10))])]
        [("vision_scores", .dict [("alignment", .float (mkRat 9 10))])] =
      .ok (true, "") := by
  constructor
  · have h := (score_threshold_gates
      [("thresholds", .dict [("alignment_score", .float (mkRat 9 10))])]
      [("vision_scores", .dict [("alignment", .float (mkRat 89 100))])]
      [("alignment_score", .float (mkRat 9 10))]
      [("alignment", .float (mkRat 89 100))] rfl rfl).1
      (mkRat 9 10) (mkRat 89 100) rfl rfl
    have hlt : ¬ (mkRat 9 10 : Rat) ≤ mkRat 89 100 := by
      rw [Rat.mkRat_eq_div, Rat.mkRat_eq_div]; norm_num
    rw [h, if_neg hlt]
    rfl
  · have h := (score_threshold_gates
      [("thresholds", .dict [("alignment_score", .float (mkRat 9 10))])]
      [("vision_scores", .dict [("alignment", .float (mkRat 9 10))])]
      [("alignment_score", .float (mkRat 9 10))]
      [("alignment", .float (mkRat 9 10))] rfl rfl).1
      (mkRat 9 10) (mkRat 9 10) rfl rfl
    rw [h, if_pos le_rfl]

/-!
## Claim C2
-/

/-- Claim C2 counterexample: with entirely empty expectations — no
capabilities, no interactions, no thresholds requested — `evaluate` still
emits failing reasons, because the three score gates run against the
default thresholds.  So it is not the case that requirements absent from
expectations contribute no failing reason. -/
theorem unrequested_score_gates_fail_cex :
    (evaluate [] []).2 =
      .ok ⟨false, ["alignment_score: 0.00 < 0.90", "spacing_score: 0.00 < 0.90",
                   "contrast_score: 0.00 < 0.75"]⟩ ∧
    (evaluate [] []).2 ≠ .ok ⟨true, []⟩ := by
  have hr : (evaluate [] []).2 =
      .ok ⟨false, ["alignment_score: 0.00 < 0.90", "spacing_score: 0.00 < 0.90",
                   "contrast_score: 0.00 < 0.75"]⟩ := rfl
  refine ⟨hr, fun h => ?_⟩
  rw [hr] at h
  simp at h

/-- Claim C2 (amended): a capability or interaction requirement that
expectations does not request never contributes a failing reason — a
capability with minimum 0 (or absent, or with `capabilities` missing
entirely) passes regardless of the observations, a non-required filters
capability passes, and an absent or empty interactions list makes the
interaction gate pass.  (The score gates are exempt: they always compare
against default thresholds, as the counterexample shows.) -/
theorem unrequested_capability_interaction_gates_pass
    (exp obs : PyDict) :
    (∀ key cfg, get_capability_config exp key = .ok cfg →
       pyEqB (dictGetD cfg "min" (.int 0)) (.int 0) = true →
       min_count_gate key exp obs = .ok (true, "")) ∧
    (∀ cfg, get_capability_config exp "filters" = .ok cfg →
       pyTruthy (dictGetD cfg "required" (.bool false)) = false →
       filters_required exp obs = .ok (true, "")) ∧
    (pyTruthy (dictGetD exp "interactions" (.list [])) = false →
       form_submit_ok exp obs = .ok (true, "")) ∧
    (dictFind exp "capabilities" = Option.none →
       ∀ key, min_count_gate key exp obs = .ok (true, "") ∧
         filters_required exp obs = .ok (true, "")) ∧
    (dictFind exp "interactions" = Option.none →
       form_submit_ok exp obs = .ok (true, "")) := by
  have hempty : ∀ key, dictFind exp "capabilities" = Option.none →
      get_capability_config exp key = .ok [] := by
    intro key h
    simp [get_capability_config, dictGetD, h, pyGet, dictFind]
  refine ⟨?_, ?_, ?_, ?_, ?_⟩
  · intro key cfg hcfg hmin
    simp [min_count_gate, hcfg, hmin]
  · intro cfg hcfg hreq
    simp [filters_required, hcfg, hreq]
  · intro h
    simp [form_submit_ok, h]
  · intro h key
    constructor
    · simp [min_count_gate, hempty key h, dictGetD, dictFind, pyEqB]
    · simp [filters_required, hempty "filters" h, dictGetD, dictFind, pyTruthy]
  · intro h
    simp [form_submit_ok, dictGetD, h, pyTruthy]

/-- Witness for C2 (amended) at concrete inputs: a `kpi_tiles` capability
with minimum 0 passes against observations that report none, and an
expectations dictionary without interactions passes the interaction
gate. -/
theorem unrequested_capability_interaction_gates_pass_witness :
    min_count_gate "kpi_tiles"
        [("capabilities", .dict [("kpi_tiles", .dict [("min", .int 0)])])]
        [("elements", .dict [("kpi_tiles", .int 0)])] = .ok (true, "") ∧
    form_submit_ok [("capabilities", .dict [])] [] = .ok (true, "") := by
  constructor
  · exact (unrequested_capability_interaction_gates_pass
      [("capabilities", .dict [("kpi_tiles", .dict [("min", .int 0)])])]
      [("elements", .dict [("kpi_tiles", .int 0)])]).1
      "kpi_tiles" [("min", .int 0)] rfl rfl
  · exact (unrequested_capability_interaction_gates_pass
      [("capabilities", .dict [])] []).2.2.1 rfl

/-!
## Claim C3
-/

/-- Setting an absent key appends it at the end (Python dict insertion
order). -/
theorem dictSet_append_of_find_none (d : PyDict) (k : String) (v : PyVal)
    (h : dictFind d k = Option.none) : dictSet d k v = d ++ [(k, v)] := by
  induction d with
  | nil => rfl
  | cons kv rest ih =>
    obtain ⟨k1, v1⟩ := kv
    by_cases hk : k1 = k
    · simp [dictFind, hk] at h
    · simp only [dictFind, hk, if_false] at h
      simp [dictSet, hk, ih h]

/-- Setting one key leaves every other key's lookup unchanged. -/
theorem dictFind_dictSet_ne (d : PyDict) (k k2 : String) (v : PyVal)
    (h : k2 ≠ k) : dictFind (dictSet d k v) k2 = dictFind d k2 := by
  induction d with
  | nil => simp [dictSet, dictFind, Ne.symm h]
  | cons kv rest ih =>
    obtain ⟨k1, v1⟩ := kv
    by_cases hk : k1 = k
    · subst hk
      simp [dictSet, dictFind, Ne.symm h]
    · simp [dictSet, dictFind, hk, ih]

/-- Claim C3 counterexample: `evaluate` called with expectations lacking
a `thresholds` key hands back a mutated expectations dictionary — the
default thresholds were installed — so expectations is not left
unchanged. -/
theorem evaluate_mutates_expectations_cex :
    (evaluate [] []).1 = [("thresholds", defaultThresholds)] ∧
    (evaluate [] []).1 ≠ ([] : PyDict) := by
  have hr : (evaluate [] []).1 = [("thresholds", defaultThresholds)] := rfl
  refine ⟨hr, fun h => ?_⟩
  rw [hr] at h
  simp at h

/-- Claim C3 (amended): `evaluate` leaves its expectations argument
unchanged whenever the argument already has a `thresholds` key; when that
key is absent it appends exactly the default-thresholds entry, leaving
every other entry — capabilities and interactions included — as it
was. -/
theorem evaluate_preserves_expectations (exp obs : PyDict) :
    ((dictFind exp "thresholds").isSome → (evaluate exp obs).1 = exp) ∧
    (dictFind exp "thresholds" = Option.none →
       (evaluate exp obs).1 = exp ++ [("thresholds", defaultThresholds)]) ∧
    (∀ key, key ≠ "thresholds" →
       dictFind (evaluate exp obs).1 key = dictFind exp key) := by
  refine ⟨?_, ?_, ?_⟩
  · intro h
    simp [evaluate, h]
  · intro h
    simp [evaluate, h, dictSet_append_of_find_none _ _ _ h]
  · intro key hk
    by_cases h : (dictFind exp "thresholds").isSome
    · simp [evaluate, h]
    · have hn : dictFind exp "thresholds" = Option.none := by
        cases hfind : dictFind exp "thresholds" <;> simp_all
      simp [evaluate, hn, dictFind_dictSet_ne _ _ _ _ hk]

/-- Witness for C3 (amended): expectations that already carry a
`thresholds` entry come back from `evaluate` unchanged. -/
theorem evaluate_preserves_expectations_witness :
    (evaluate [("thresholds", .dict [])] []).1 = [("thresholds", .dict [])] :=
  (evaluate_preserves_expectations [("thresholds", .dict [])] []).1 rfl



/-!
## Claim C8
-/

theorem cmpQ_intCast (a b : Int) :
    cmpQ (a : Rat) (b : Rat) = if a < b then .lt else if a = b then .eq else .gt := by
  simp [cmpQ]

/-- `pyLE` on two Python ints decides `a ≤ b`. -/
theorem pyLE_int (a b : Int) : pyLE (.int a) (.int b) = .ok (decide (a ≤ b)) := by
  have h : (cmpQ (a : Rat) (b : Rat) ≠ Ordering.gt) ↔ a ≤ b := by
    rw [cmpQ_intCast]
    rcases lt_trichotomy a b with hlt | heq | hgt
    · simp [hlt, le_of_lt hlt]
    · simp [heq]
    · simp [not_lt.mpr (le_of_lt hgt), hgt.ne', not_le.mpr hgt]
  show Except.ok (decide (cmpQ ((a : Int) : Rat) ((b : Int) : Rat) ≠ .gt)) = .ok (decide (a ≤ b))
  rw [decide_eq_decide.mpr h]

/-- `pyLT` on two Python ints decides `a < b`. -/
theorem pyLT_int (a b : Int) : pyLT (.int a) (.int b) = .ok (decide (a < b)) := by
  have h : (cmpQ (a : Rat) (b : Rat) = Ordering.lt) ↔ a < b := by
    rw [cmpQ_intCast]
    rcases lt_trichotomy a b with hlt | heq | hgt
    · simp [hlt]
    · simp [heq]
    · simp [not_lt.mpr (le_of_lt hgt), hgt.ne']
  show Except.ok (decide (cmpQ ((a : Int) : Rat) ((b : Int) : Rat) = .lt)) = .ok (decide (a < b))
  rw [decide_eq_decide.mpr h]

theorem intercalate_go_nil (acc sep : String) : String.intercalate.go acc sep [] = acc := rfl

theorem intercalate_go_cons (acc sep x : String) (xs : List String) :
    String.intercalate.go acc sep (x :: xs) = String.intercalate.go (acc ++ sep ++ x) sep xs := rfl

/-- `_form_submit_ok` over a single expected interaction reduces to that
interaction's failures, joined when non-empty. -/
theorem form_submit_ok_single (i : PyVal) (d : List (String × PyVal)) :
    form_submit_ok [("interactions", .list [i])] [("interactions", .dict d)] =
      (interaction_failures (.dict d) i).map
        (fun fs => if fs.isEmpty then (true, "") else (false, String.intercalate "; " fs)) := by
  cases hi : interaction_failures (.dict d) i with
  | error e =>
    simp [form_submit_ok, pyTruthy, dictGetD, dictFind, pyIter, List.forIn_cons, hi, Except.map]
  | ok fs =>
    cases fs with
    | nil => simp [form_submit_ok, pyTruthy, dictGetD, dictFind, pyIter,
        List.forIn_cons, List.forIn_nil, hi, Except.map]
    | cons x xs => simp [form_submit_ok, pyTruthy, dictGetD, dictFind, pyIter,
        List.forIn_cons, List.forIn_nil, hi, Except.map]

set_option maxHeartbeats 8000000 in
/-- The failures one expected `form_submit` interaction contributes when
the matching observation was attempted and captured a status: the status
check, the success-banner check and the error-banner check, in order. -/
theorem interaction_failures_form (iid : String) (e2 esb : Bool) (s : Int) (sb eb : Bool) :
    interaction_failures (.dict [(iid, mkFormActual true (some s) sb eb)])
        (mkFormInteraction iid e2 esb) =
      .ok ((if e2 = true ∧ ¬ (200 ≤ s ∧ s < 300) then
              [s!"{iid}: http_status {s} not 2xx"] else []) ++
           (if esb = true ∧ sb = false then
              [s!"{iid}: success_banner not shown"] else []) ++
           (if eb = true then [s!"{iid}: error_banner shown"] else [])) := by
  by_cases h1 : (200 : Int) ≤ s <;> by_cases h2 : s < 300 <;>
    cases e2 <;> cases esb <;> cases sb <;> cases eb <;>
      (simp only [interaction_failures, mkFormActual, mkFormInteraction,
         List.cons_append, List.nil_append];
       simp [pyTruthy, dictGetD, dictFind, pySubscr, pyGetK, pyGet, pyEqB, isNone,
         pyStr, pyLE_int, pyLT_int, h1, h2];
       try rfl)

/-- Claim C8 (amended): for a single expected `form_submit` interaction,
the gate fails with `<id>: not attempted` when the observation was not
attempted, regardless of every other field; when `expect_http_2xx` is set
and no status was captured it fails with `<id>: http_status not
captured`, and — the amendment — that failure short-circuits the
remaining checks for the interaction, so a simultaneously observed error
banner goes unreported; when a status was captured, the status failure
(`expect_http_2xx` set and status outside `[200,300)`), the
success-banner failure (`expect_success_banner` set, no banner) and the
error-banner failure (error banner observed, regardless of expectations)
are all reported together, joined by `"; "` and each prefixed with the
interaction id; an attempted observation with status 200, a success
banner and no error banner passes under both expectations. -/
theorem form_submit_gate_behaviour (iid : String) (e2 esb : Bool) :
    (∀ (st : Option Int) (sb eb : Bool),
       form_submit_ok [("interactions", .list [mkFormInteraction iid e2 esb])]
         (mkFormObservation iid false st sb eb) =
         .ok (false, s!"{iid}: not attempted")) ∧
    (∀ (sb eb : Bool), e2 = true →
       form_submit_ok [("interactions", .list [mkFormInteraction iid e2 esb])]
         (mkFormObservation iid true Option.none sb eb) =
         .ok (false, s!"{iid}: http_status not captured")) ∧
    (∀ (s : Int) (sb eb : Bool),
       form_submit_ok [("interactions", .list [mkFormInteraction iid e2 esb])]
         (mkFormObservation iid true (some s) sb eb) =
         (let fs : List String :=
            (if e2 = true ∧ ¬ (200 ≤ s ∧ s < 300) then
               [s!"{iid}: http_status {s} not 2xx"] else []) ++
            (if esb = true ∧ sb = false then
               [s!"{iid}: success_banner not shown"] else []) ++
            (if eb = true then [s!"{iid}: error_banner shown"] else []);
          if fs.isEmpty then .ok (true, "")
          else .ok (false, String.intercalate "; " fs))) := by
  refine ⟨?_, ?_, ?_⟩
  · intro st sb eb
    rw [show mkFormObservation iid false st sb eb =
      [("interactions", .dict [(iid, mkFormActual false st sb eb)])] from rfl,
      form_submit_ok_single]
    have h : interaction_failures (.dict [(iid, mkFormActual false st sb eb)])
        (mkFormInteraction iid e2 esb) = .ok [s!"{iid}: not attempted"] := by
      cases st <;>
        (simp only [interaction_failures, mkFormActual, mkFormInteraction,
           List.cons_append, List.nil_append];
         simp [pyTruthy, dictGetD, dictFind, pySubscr, pyGetK, pyGet, pyEqB, isNone, pyStr])
    rw [h]
    simp [Except.map, String.intercalate, intercalate_go_nil]
  · intro sb eb he2
    subst he2
    rw [show mkFormObservation iid true Option.none sb eb =
      [("interactions", .dict [(iid, mkFormActual true Option.none sb eb)])] from rfl,
      form_submit_ok_single]
    have h : interaction_failures (.dict [(iid, mkFormActual true Option.none sb eb)])
        (mkFormInteraction iid true esb) = .ok [s!"{iid}: http_status not captured"] := by
      simp only [interaction_failures, mkFormActual, mkFormInteraction,
        List.cons_append, List.nil_append]
      simp [pyTruthy, dictGetD, dictFind, pySubscr, pyGetK, pyGet, pyEqB, isNone, pyStr]
    rw [h]
    simp [Except.map, String.intercalate, intercalate_go_nil]
  · intro s sb eb
    rw [show mkFormObservation iid true (some s) sb eb =
      [("interactions", .dict [(iid, mkFormActual true (some s) sb eb)])] from rfl,
      form_submit_ok_single, interaction_failures_form]
    simp only [Except.map]
    rw [apply_ite (Except.ok : Bool × String → Except String (Bool × String))]

/-- Claim C8 counterexample: expectations expect a 2xx on
`contact_submit`; the observation was attempted, captured no status and
showed an error banner.  The gate reports only the missing status — the
`continue` after that failure drops the error-banner check — so not all
failures of the interaction are reported together, contrary to the
claim. -/
theorem form_submit_report_short_circuit_cex :
    form_submit_ok [("interactions", .list [mkFormInteraction "contact_submit" true false])]
        (mkFormObservation "contact_submit" true Option.none false true) =
      .ok (false, "contact_submit: http_status not captured") ∧
    form_submit_ok [("interactions", .list [mkFormInteraction "contact_submit" true false])]
        (mkFormObservation "contact_submit" true Option.none false true) ≠
      .ok (false,
        "contact_submit: http_status not captured; contact_submit: error_banner shown") := by
  have hr : form_submit_ok
      [("interactions", .list [mkFormInteraction "contact_submit" true false])]
      (mkFormObservation "contact_submit" true Option.none false true) =
      .ok (false, "contact_submit: http_status not captured") := rfl
  refine ⟨hr, fun h => ?_⟩
  rw [hr] at h
  have hs := congrArg Prod.snd (Except.ok.inj h)
  exact absurd hs (by decide)

/-- Witness for C8 at concrete inputs: observed status 501 with both
expectations set reports both resulting failures joined and id-prefixed,
and the all-good observation passes. -/
theorem form_submit_gate_behaviour_witness :
    form_submit_ok [("interactions", .list [mkFormInteraction "contact_submit" true true])]
        (mkFormObservation "contact_submit" true (some 501) false false) =
      .ok (false,
        "contact_submit: http_status 501 not 2xx; contact_submit: success_banner not shown") ∧
    form_submit_ok [("interactions", .list [mkFormInteraction "contact_submit" true true])]
        (mkFormObservation "contact_submit" true (some 200) true false) =
      .ok (true, "") := by
  constructor
  · have h := (form_submit_gate_behaviour "contact_submit" true true).2.2 501 false false
    rw [h]
    rfl
  · have h := (form_submit_gate_behaviour "contact_submit" true true).2.2 200 true false
    rw [h]
    rfl

end Symphony

namespace Symphony

theorem passLoop_stall (last : Option (List String)) (ctr : Nat) (f : List String)
    (rest : List (List String)) (hf : f ≠ []) (hlast : last ≠ some f) :
    passLoop last ctr (f :: f :: rest) = (.stalled, 2) := by
  have hfe : f.isEmpty = false := by simpa using hf
  simp [passLoop, hfe, hlast]

theorem passLoop_reset (last : Option (List String)) (ctr : Nat) (f g : List String)
    (rest : List (List String)) (hf : f ≠ []) (hg : g ≠ []) (hfg : f ≠ g)
    (hlast : last ≠ some f) :
    passLoop last ctr (f :: g :: rest) =
      ((passLoop (some g) 0 rest).1, (passLoop (some g) 0 rest).2 + 2) := by
  have hfe : f.isEmpty = false := by simpa using hf
  have hge : g.isEmpty = false := by simpa using hg
  simp [passLoop, hfe, hge, hlast, hfg]

theorem startAllGo_error_nil (cmds : List StartCmd) :
    ∀ (running : List Nat) (pid : Nat), (∀ c ∈ cmds, c.spawnOk = true) →
      ∀ procs, startAllGo cmds running pid = .error procs → procs = [] := by
  induction cmds with
  | nil =>
    intro running pid h procs he
    simp [startAllGo] at he
  | cons c rest ih =>
    intro running pid h procs he
    have hc : c.spawnOk = true := h c (by simp)
    rw [startAllGo, if_neg (by simp [hc])] at he
    by_cases hw : c.hasPort && ¬ c.portReady
    · rw [if_pos hw] at he
      exact (Except.error.inj he).symm
    · rw [if_neg hw] at he
      exact ih (running ++ [pid]) (pid + 1) (fun d hd => h d (by simp [hd])) procs he

theorem domNodeCount_append (a b : List HtmlEvent) :
    domNodeCount (a ++ b) = domNodeCount a + domNodeCount b := by
  simp [domNodeCount, List.countP_append]

theorem domNodeCount_startTag_cons (t : String) (es : List HtmlEvent) :
    domNodeCount (.startTag t :: es) = domNodeCount es + (if t = "" then 0 else 1) := by
  by_cases h : t = "" <;> simp [domNodeCount, List.countP_cons, h]

mutual

theorem nodeEvents_count (n : HtmlNode) (h : wfNode n = true) :
    domNodeCount (nodeEvents n) = nodeElements n := by
  cases n with
  | element tag children =>
    have htag : ¬ tag = "" := by
      have h2 := h
      simp [wfNode] at h2
      exact h2.1
    have hchildren : wfForest children = true := by
      have h2 := h
      simp [wfNode] at h2
      exact h2.2
    show domNodeCount (.startTag tag :: (forestEvents children ++ [.endTag tag])) =
      1 + forestElements children
    rw [domNodeCount_startTag_cons, domNodeCount_append, if_neg htag,
      forestEvents_count children hchildren]
    show forestElements children + 0 + 1 = 1 + forestElements children
    omega
  | textNode s => rfl

theorem forestEvents_count (f : List HtmlNode) (h : wfForest f = true) :
    domNodeCount (forestEvents f) = forestElements f := by
  cases f with
  | nil => rfl
  | cons n rest =>
    have hn : wfNode n = true := by
      have h2 := h
      simp [wfForest] at h2
      exact h2.1
    have hrest : wfForest rest = true := by
      have h2 := h
      simp [wfForest] at h2
      exact h2.2
    show domNodeCount (nodeEvents n ++ forestEvents rest) = nodeElements n + forestElements rest
    rw [domNodeCount_append, nodeEvents_count n hn, forestEvents_count rest hrest]

end

/-!
## Claim C1
-/

/-- Claim C1: in the orchestrator pass loop, as soon as a completed pass
produces a non-empty failing-reasons list identical (as an ordered list)
to the immediately preceding pass's list, the run stops right after that
second pass with status stalled — a third pass never starts, whatever
passes would have followed — while a differing consecutive list resets
the stagnation counter to zero; in particular the P7 sequence
`["a"], ["a"], ["a"]` stalls after exactly two passes. -/
theorem stagnation_two_repeats :
    (∀ (last : Option (List String)) (ctr : Nat) (f : List String)
       (rest : List (List String)), f ≠ [] → last ≠ some f →
       passLoop last ctr (f :: f :: rest) = (.stalled, 2)) ∧
    (∀ (last : Option (List String)) (ctr : Nat) (f g : List String)
       (rest : List (List String)), f ≠ [] → g ≠ [] → f ≠ g → last ≠ some f →
       passLoop last ctr (f :: g :: rest) =
         ((passLoop (some g) 0 rest).1, (passLoop (some g) 0 rest).2 + 2)) ∧
    runPassLoop [["a"], ["a"], ["a"]] = (.stalled, 2) :=
  ⟨ passLoop_stall, passLoop_reset, rfl ⟩

/-- Witness for C1: a fresh run whose first two passes fail with the same
single reason stalls after two passes, whatever the remaining passes
would have produced. -/
theorem stagnation_two_repeats_witness :
    passLoop Option.none 0 [["boom"], ["boom"], ["other"]] = (.stalled, 2) :=
  stagnation_two_repeats.1 Option.none 0 ["boom"] [["other"]]
    (by decide) (by decide)

/-!
## Claim C4
-/

/-- Claim C4 counterexample: the first service starts and becomes ready;
spawning the second raises (`spawnOk = false`).  `start_all` propagates
the exception with process 0 still alive — `stop_all` is only called by
the port-wait handler — so a spawned process outlives the failed call. -/
theorem spawn_failure_leaks_processes_cex :
    startAll [⟨ true, true, true ⟩, ⟨ false, true, true ⟩] = .error [0] ∧
    ([0] : List Nat) ≠ [] := ⟨ rfl, by simp ⟩

/-- Claim C4 (amended): when every spawn succeeds — so the only failures
are port waits timing out or a spawned process exiting before its port
opened — a failing `start_all` stops every previously started process
before the error propagates (the error payload, the list of processes
still alive, is empty).  An exception raised while spawning a later
command, however, propagates without stopping the earlier processes, as
the counterexample shows. -/
theorem start_all_cleanup_on_wait_failure (cmds : List StartCmd)
    (h : ∀ c ∈ cmds, c.spawnOk = true) :
    ∀ procs, startAll cmds = .error procs → procs = [] :=
  startAllGo_error_nil cmds [] 0 h

/-- Witness for C4 (amended): a single service whose port wait fails
leaves no process alive. -/
theorem start_all_cleanup_on_wait_failure_witness :
    startAll [⟨ true, true, false ⟩] = .error [] ∧ ([] : List Nat) = [] :=
  ⟨ rfl, start_all_cleanup_on_wait_failure [⟨ true, true, false ⟩] (by decide) [] rfl ⟩

/-!
## Claim C6
-/

/-- A forest has at least as many elements in total as at top level. -/
theorem topLevel_le_forestElements (f : List HtmlNode) :
    topLevelElements f ≤ forestElements f := by
  induction f with
  | nil => simp [topLevelElements, forestElements]
  | cons n rest ih =>
    cases n with
    | element tag children =>
      simp only [topLevelElements, forestElements, nodeElements]
      omega
    | textNode s =>
      simp only [topLevelElements, forestElements, nodeElements]
      omega

/-- Claim C6 counterexample: the classification is not "blank iff empty
or a single top-level element".  A document with one top-level element
containing one child element counts two start tags, so the code calls it
non-blank while the claimed criterion calls it blank; a non-empty
text-only document parses to zero elements, so the code calls it blank
while the claimed criterion calls it non-blank. -/
theorem blank_classification_cex :
    (probeIsBlank false (forestEvents [.element "div" [.element "p" []]]) = false ∧
     specBlank false [.element "div" [.element "p" []]] = true) ∧
    (probeIsBlank false (forestEvents [.textNode "hello"]) = true ∧
     specBlank false [.textNode "hello"] = false) :=
  ⟨ ⟨ rfl, rfl ⟩, ⟨ rfl, rfl ⟩ ⟩

/-- Claim C6 (amended): for a healthy response, the probe is blank iff
the body strips to empty or the markup parses to at most one element
start tag in total, nested elements included (the parser counts every
`handle_starttag`, not top-level nodes, and zero elements also counts as
blank).  Consequently a document with two or more elements in total — in
particular more than one top-level node, or one top-level node with an
element child — is non-blank whenever the body is non-empty. -/
theorem blank_iff_total_elements_le_one (strippedEmpty : Bool)
    (forest : List HtmlNode) (hwf : wfForest forest = true) :
    (probeIsBlank strippedEmpty (forestEvents forest) =
       (strippedEmpty || decide (forestElements forest ≤ 1))) ∧
    (strippedEmpty = false → 2 ≤ forestElements forest →
       probeIsBlank strippedEmpty (forestEvents forest) = false) ∧
    (strippedEmpty = false → 2 ≤ topLevelElements forest →
       probeIsBlank strippedEmpty (forestEvents forest) = false) := by
  have hcount := forestEvents_count forest hwf
  refine ⟨ ?_, ?_, ?_ ⟩
  · simp [probeIsBlank, hcount]
  · intro hse h2
    subst hse
    simp only [probeIsBlank, hcount, Bool.false_or]
    simpa using by omega
  · intro hse h2
    subst hse
    have hle := topLevel_le_forestElements forest
    simp only [probeIsBlank, hcount, Bool.false_or]
    simpa using by omega

/-- Witness for C6 (amended) on a concrete two-element document. -/
theorem blank_iff_total_elements_le_one_witness :
    probeIsBlank false (forestEvents [.element "div" [.element "p" []]]) =
      (false || decide (forestElements [.element "div" [.element "p" []]] ≤ 1)) :=
  (blank_iff_total_elements_le_one false [.element "div" [.element "p" []]]
    (by decide)).1

/-!
## Claim C7
-/

/-- Claim C7: the empty-payload half holds â `parse_vision_payload` on
`{}` returns the default result with all three scores null, exactly one
issue describing the empty response, and the (empty) warnings list â but
the never-raises half is a code bug: a string payload holding valid JSON
that is not an object, such as `"[1]"`, is returned unchecked by
`_coerce_dict` (despite its `Dict` return annotation) and the following
`data.get("version")` raises `AttributeError`. -/
theorem parse_vision_payload_empty_dict_and_raises :
    parse_vision_payload (.dict []) "http://localhost:3000" "qa" =
      .ok (default_result "http://localhost:3000" "qa"
        (some "Empty response from Vision agent"), []) ∧
    (default_result "http://localhost:3000" "qa"
        (some "Empty response from Vision agent")).scores =
      [("alignment", Option.none), ("spacing", Option.none), ("contrast", Option.none)] ∧
    (default_result "http://localhost:3000" "qa"
        (some "Empty response from Vision agent")).issues =
      [{ id := "vision_error", status := "fail",
         detail := some "Empty response from Vision agent" }] ∧
    parse_vision_payload (.str "[1]") "http://localhost:3000" "qa" =
      .error "AttributeError: object has no method get" :=
  ⟨rfl, rfl, rfl, rfl⟩

end Symphony

namespace Symphony

theorem head?_filter_eq_find? {α : Type} (p : α → Bool) (l : List α) :
    (l.filter p).head? = l.find? p := by
  induction l with
  | nil => rfl
  | cons a t ih =>
    by_cases h : p a <;> simp [List.filter_cons, h, ih, List.find?_cons]

theorem find?_filter_eq {α : Type} (p q : α → Bool) (l : List α) :
    (l.filter p).find? q = l.find? (fun a => p a && q a) := by
  induction l with
  | nil => rfl
  | cons a t ih =>
    by_cases hp : p a <;> by_cases hq : q a <;>
      simp [List.filter_cons, hp, hq, ih, List.find?_cons]

theorem find?_none_mono {α : Type} (p q : α → Bool) (l : List α)
    (himp : ∀ a, p a = true → q a = true) (h : l.find? q = Option.none) :
    l.find? p = Option.none := by
  rw [List.find?_eq_none] at h ⊢
  exact fun a ha hp => h a ha (himp a hp)

theorem resolve_tier_pref (run_id : String) (pk : Option String)
    (sels kws : List String) (probes : List ServerProbe) (p : ServerProbe)
    (hp : probes.find? (fun q => isHealthy q && (!q.is_blank &&
        (prefMatch pk q && matches_hints sels kws q))) = some p) :
    resolve_preview_surface run_id pk sels kws probes =
      { url := some p.url, probe := some p } := by
  have e1 : ((((probes.filter isHealthy).filter (fun q => !q.is_blank)).filter
      (prefMatch pk)).filter (matches_hints sels kws)).head? =
      probes.find? (fun q => isHealthy q && (!q.is_blank &&
        (prefMatch pk q && matches_hints sels kws q))) := by
    rw [head?_filter_eq_find?, find?_filter_eq, find?_filter_eq, find?_filter_eq]
  simp only [resolve_preview_surface, e1, hp]

theorem resolve_tier_hint (run_id : String) (pk : Option String)
    (sels kws : List String) (probes : List ServerProbe) (p : ServerProbe)
    (h1 : probes.find? (fun q => isHealthy q && (!q.is_blank &&
        (prefMatch pk q && matches_hints sels kws q))) = Option.none)
    (hp : probes.find? (fun q => isHealthy q && (!q.is_blank &&
        matches_hints sels kws q)) = some p) :
    resolve_preview_surface run_id pk sels kws probes =
      { url := some p.url, probe := some p } := by
  have e1 : ((((probes.filter isHealthy).filter (fun q => !q.is_blank)).filter
      (prefMatch pk)).filter (matches_hints sels kws)).head? =
      probes.find? (fun q => isHealthy q && (!q.is_blank &&
        (prefMatch pk q && matches_hints sels kws q))) := by
    rw [head?_filter_eq_find?, find?_filter_eq, find?_filter_eq, find?_filter_eq]
  have e2 : (((probes.filter isHealthy).filter (fun q => !q.is_blank)).filter
      (matches_hints sels kws)).head? =
      probes.find? (fun q => isHealthy q && (!q.is_blank &&
        matches_hints sels kws q)) := by
    rw [head?_filter_eq_find?, find?_filter_eq, find?_filter_eq]
  simp only [resolve_preview_surface, e1, e2, h1, hp]

theorem resolve_tier_nonblank (run_id : String) (pk : Option String)
    (sels kws : List String) (probes : List ServerProbe) (p : ServerProbe)
    (h1 : probes.find? (fun q => isHealthy q && (!q.is_blank &&
        (prefMatch pk q && matches_hints sels kws q))) = Option.none)
    (h2 : probes.find? (fun q => isHealthy q && (!q.is_blank &&
        matches_hints sels kws q)) = Option.none)
    (hp : probes.find? (fun q => isHealthy q && !q.is_blank) = some p) :
    resolve_preview_surface run_id pk sels kws probes =
      { url := some p.url, probe := some p } := by
  have e1 : ((((probes.filter isHealthy).filter (fun q => !q.is_blank)).filter
      (prefMatch pk)).filter (matches_hints sels kws)).head? =
      probes.find? (fun q => isHealthy q && (!q.is_blank &&
        (prefMatch pk q && matches_hints sels kws q))) := by
    rw [head?_filter_eq_find?, find?_filter_eq, find?_filter_eq, find?_filter_eq]
  have e2 : (((probes.filter isHealthy).filter (fun q => !q.is_blank)).filter
      (matches_hints sels kws)).head? =
      probes.find? (fun q => isHealthy q && (!q.is_blank &&
        matches_hints sels kws q)) := by
    rw [head?_filter_eq_find?, find?_filter_eq, find?_filter_eq]
  have e3 : ((probes.filter isHealthy).filter (fun q => !q.is_blank)).head? =
      probes.find? (fun q => isHealthy q && !q.is_blank) := by
    rw [head?_filter_eq_find?, find?_filter_eq]
  simp only [resolve_preview_surface, e1, e2, e3, h1, h2, hp]

theorem resolve_tier_blank (run_id : String) (pk : Option String)
    (sels kws : List String) (probes : List ServerProbe) (p : ServerProbe)
    (hnb : probes.find? (fun q => isHealthy q && !q.is_blank) = Option.none)
    (hp : probes.find? (fun q => isHealthy q && q.is_blank) = some p) :
    resolve_preview_surface run_id pk sels kws probes =
      { url := some p.url, probe := some p, fallback_used := true,
        message := some "Primary surface returned a blank DOM. Captured diagnostics and continuing with fallback.",
        artifacts := capture_blank_artifacts run_id p } := by
  have h1 : probes.find? (fun q => isHealthy q && (!q.is_blank &&
      (prefMatch pk q && matches_hints sels kws q))) = Option.none := by
    refine find?_none_mono _ _ _ ?_ hnb
    intro a ha
    simp_all
  have h2 : probes.find? (fun q => isHealthy q && (!q.is_blank &&
      matches_hints sels kws q)) = Option.none := by
    refine find?_none_mono _ _ _ ?_ hnb
    intro a ha
    simp_all
  have e1 : ((((probes.filter isHealthy).filter (fun q => !q.is_blank)).filter
      (prefMatch pk)).filter (matches_hints sels kws)).head? =
      probes.find? (fun q => isHealthy q && (!q.is_blank &&
        (prefMatch pk q && matches_hints sels kws q))) := by
    rw [head?_filter_eq_find?, find?_filter_eq, find?_filter_eq, find?_filter_eq]
  have e2 : (((probes.filter isHealthy).filter (fun q => !q.is_blank)).filter
      (matches_hints sels kws)).head? =
      probes.find? (fun q => isHealthy q && (!q.is_blank &&
        matches_hints sels kws q)) := by
    rw [head?_filter_eq_find?, find?_filter_eq, find?_filter_eq]
  have e3 : ((probes.filter isHealthy).filter (fun q => !q.is_blank)).head? =
      probes.find? (fun q => isHealthy q && !q.is_blank) := by
    rw [head?_filter_eq_find?, find?_filter_eq]
  have e4 : ((probes.filter isHealthy).filter (fun q => q.is_blank)).head? =
      probes.find? (fun q => isHealthy q && q.is_blank) := by
    rw [head?_filter_eq_find?, find?_filter_eq]
  simp only [resolve_preview_surface, e1, e2, e3, e4, h1, h2, hnb, hp]

theorem resolve_tier_error (run_id : String) (pk : Option String)
    (sels kws : List String) (probes : List ServerProbe)
    (hh : probes.find? isHealthy = Option.none) :
    (resolve_preview_surface run_id pk sels kws probes).url = Option.none ∧
    (resolve_preview_surface run_id pk sels kws probes).probe = Option.none ∧
    (∀ fe, probes.find? (fun p => p.error.getD "" != "") = some fe →
       (resolve_preview_surface run_id pk sels kws probes).message =
         some ("Failed to reach " ++ fe.url ++ ": " ++ fe.error.getD "")) ∧
    (probes.find? (fun p => p.error.getD "" != "") = Option.none →
       (resolve_preview_surface run_id pk sels kws probes).message =
         some "No responsive preview surface detected.") := by
  have himp : ∀ (X : ServerProbe → Bool) a, (isHealthy a && X a) = true → isHealthy a = true := by
    intro X a ha
    simp_all
  have h1 : probes.find? (fun q => isHealthy q && (!q.is_blank &&
      (prefMatch pk q && matches_hints sels kws q))) = Option.none :=
    find?_none_mono _ _ _ (himp _) hh
  have h2 : probes.find? (fun q => isHealthy q && (!q.is_blank &&
      matches_hints sels kws q)) = Option.none :=
    find?_none_mono _ _ _ (himp _) hh
  have h3 : probes.find? (fun q => isHealthy q && !q.is_blank) = Option.none :=
    find?_none_mono _ _ _ (himp _) hh
  have h4 : probes.find? (fun q => isHealthy q && q.is_blank) = Option.none :=
    find?_none_mono _ _ _ (himp _) hh
  have e1 : ((((probes.filter isHealthy).filter (fun q => !q.is_blank)).filter
      (prefMatch pk)).filter (matches_hints sels kws)).head? =
      probes.find? (fun q => isHealthy q && (!q.is_blank &&
        (prefMatch pk q && matches_hints sels kws q))) := by
    rw [head?_filter_eq_find?, find?_filter_eq, find?_filter_eq, find?_filter_eq]
  have e2 : (((probes.filter isHealthy).filter (fun q => !q.is_blank)).filter
      (matches_hints sels kws)).head? =
      probes.find? (fun q => isHealthy q && (!q.is_blank &&
        matches_hints sels kws q)) := by
    rw [head?_filter_eq_find?, find?_filter_eq, find?_filter_eq]
  have e3 : ((probes.filter isHealthy).filter (fun q => !q.is_blank)).head? =
      probes.find? (fun q => isHealthy q && !q.is_blank) := by
    rw [head?_filter_eq_find?, find?_filter_eq]
  have e4 : ((probes.filter isHealthy).filter (fun q => q.is_blank)).head? =
      probes.find? (fun q => isHealthy q && q.is_blank) := by
    rw [head?_filter_eq_find?, find?_filter_eq]
  refine ⟨?_, ?_, ?_, ?_⟩
  · simp only [resolve_preview_surface, e1, e2, e3, e4, h1, h2, h3, h4]
    cases hfe : probes.find? (fun p => p.error.getD "" != "") <;> simp [hfe]
  · simp only [resolve_preview_surface, e1, e2, e3, e4, h1, h2, h3, h4]
    cases hfe : probes.find? (fun p => p.error.getD "" != "") <;> simp [hfe]
  · intro fe hfe
    simp only [resolve_preview_surface, e1, e2, e3, e4, h1, h2, h3, h4, hfe]
  · intro hfe
    simp only [resolve_preview_surface, e1, e2, e3, e4, h1, h2, h3, h4, hfe]

/-!
## Claim C5
-/

/-- Claim C5: `resolve_preview_surface` follows the stated preference
order over the probed candidates: the first healthy non-blank probe
matching the preferred kind and the hints when one exists; else the first
healthy non-blank probe matching the hints; else the first healthy
non-blank probe; else the first healthy-but-blank probe, selected with
`fallback_used = true` and the diagnostic artifact paths captured; else a
selection with no URL whose message carries the first probe error (or the
generic no-surface message when no probe errored).  In particular,
whenever a healthy non-blank candidate exists the selected probe is
healthy and non-blank â a blank candidate is never chosen, whatever the
preferred kind. -/
theorem preview_resolution_preference (run_id : String)
    (preferred_kind : Option String) (selectors keywords : List String)
    (probes : List ServerProbe) :
    (∀ p, probes.find? (fun q => isHealthy q && (!q.is_blank &&
         (prefMatch preferred_kind q && matches_hints selectors keywords q))) = some p →
       resolve_preview_surface run_id preferred_kind selectors keywords probes =
         { url := some p.url, probe := some p }) ∧
    (∀ p, probes.find? (fun q => isHealthy q && (!q.is_blank &&
         (prefMatch preferred_kind q && matches_hints selectors keywords q))) = Option.none →
       probes.find? (fun q => isHealthy q && (!q.is_blank &&
         matches_hints selectors keywords q)) = some p →
       resolve_preview_surface run_id preferred_kind selectors keywords probes =
         { url := some p.url, probe := some p }) ∧
    (∀ p, probes.find? (fun q => isHealthy q && (!q.is_blank &&
         (prefMatch preferred_kind q && matches_hints selectors keywords q))) = Option.none →
       probes.find? (fun q => isHealthy q && (!q.is_blank &&
         matches_hints selectors keywords q)) = Option.none →
       probes.find? (fun q => isHealthy q && !q.is_blank) = some p →
       resolve_preview_surface run_id preferred_kind selectors keywords probes =
         { url := some p.url, probe := some p }) ∧
    (∀ p, probes.find? (fun q => isHealthy q && !q.is_blank) = Option.none →
       probes.find? (fun q => isHealthy q && q.is_blank) = some p →
       resolve_preview_surface run_id preferred_kind selectors keywords probes =
         { url := some p.url, probe := some p, fallback_used := true,
           message := some "Primary surface returned a blank DOM. Captured diagnostics and continuing with fallback.",
           artifacts := capture_blank_artifacts run_id p }) ∧
    (probes.find? isHealthy = Option.none →
       (resolve_preview_surface run_id preferred_kind selectors keywords probes).url = Option.none ∧
       (resolve_preview_surface run_id preferred_kind selectors keywords probes).probe = Option.none ∧
       (∀ fe, probes.find? (fun p => p.error.getD "" != "") = some fe →
          (resolve_preview_surface run_id preferred_kind selectors keywords probes).message =
            some ("Failed to reach " ++ fe.url ++ ": " ++ fe.error.getD "")) ∧
       (probes.find? (fun p => p.error.getD "" != "") = Option.none →
          (resolve_preview_surface run_id preferred_kind selectors keywords probes).message =
            some "No responsive preview surface detected.")) ∧
    ((∃ q ∈ probes, (isHealthy q && !q.is_blank) = true) →
       ∃ r, (resolve_preview_surface run_id preferred_kind selectors keywords probes).probe = some r ∧
         isHealthy r = true ∧ r.is_blank = false) := by
  refine ⟨fun p hp => resolve_tier_pref run_id preferred_kind selectors keywords probes p hp,
    fun p h1 hp => resolve_tier_hint run_id preferred_kind selectors keywords probes p h1 hp,
    fun p h1 h2 hp => resolve_tier_nonblank run_id preferred_kind selectors keywords probes p h1 h2 hp,
    fun p h1 hp => resolve_tier_blank run_id preferred_kind selectors keywords probes p h1 hp,
    fun hh => resolve_tier_error run_id preferred_kind selectors keywords probes hh, ?_⟩
  intro hex
  have hnbsome : ∃ r, probes.find? (fun q => isHealthy q && !q.is_blank) = some r := by
    rcases hex with ⟨q, hqmem, hqp⟩
    cases hnb : probes.find? (fun q => isHealthy q && !q.is_blank) with
    | some r => exact ⟨r, rfl⟩
    | none => exact absurd hqp (by simpa using List.find?_eq_none.mp hnb q hqmem)
  cases hpref : probes.find? (fun q => isHealthy q && (!q.is_blank &&
      (prefMatch preferred_kind q && matches_hints selectors keywords q))) with
  | some p =>
    have hsat := List.find?_some hpref
    simp only [Bool.and_eq_true, Bool.not_eq_true'] at hsat
    exact ⟨p, by
      rw [resolve_tier_pref run_id preferred_kind selectors keywords probes p hpref],
      hsat.1, hsat.2.1⟩
  | none =>
    cases hhint : probes.find? (fun q => isHealthy q && (!q.is_blank &&
        matches_hints selectors keywords q)) with
    | some p =>
      have hsat := List.find?_some hhint
      simp only [Bool.and_eq_true, Bool.not_eq_true'] at hsat
      exact ⟨p, by
        rw [resolve_tier_hint run_id preferred_kind selectors keywords probes p hpref hhint],
        hsat.1, hsat.2.1⟩
    | none =>
      obtain ⟨r, hr⟩ := hnbsome
      have hsat := List.find?_some hr
      simp only [Bool.and_eq_true, Bool.not_eq_true'] at hsat
      exact ⟨r, by
        rw [resolve_tier_nonblank run_id preferred_kind selectors keywords probes r hpref hhint hr],
        hsat.1, hsat.2⟩

/-- Witness for C5 at concrete probes (the P9 scenario): a healthy blank
probe of the preferred backend kind loses to a healthy non-blank frontend
probe. -/
theorem preview_resolution_preference_witness :
    resolve_preview_surface "run1" (some "backend") [] []
      [⟨"http://localhost:8000", "backend", some 200, true, 1, some "<p></p>", Option.none⟩,
       ⟨"http://localhost:3000", "frontend", some 200, false, 3,
         some "<html><body><p>hi</p></body></html>", Option.none⟩] =
      { url := some "http://localhost:3000",
        probe := some ⟨"http://localhost:3000", "frontend", some 200, false, 3,
          some "<html><body><p>hi</p></body></html>", Option.none⟩ } :=
  (preview_resolution_preference "run1" (some "backend") [] []
      [⟨"http://localhost:8000", "backend", some 200, true, 1, some "<p></p>", Option.none⟩,
       ⟨"http://localhost:3000", "frontend", some 200, false, 3,
         some "<html><body><p>hi</p></body></html>", Option.none⟩]).2.1
    ⟨"http://localhost:3000", "frontend", some 200, false, 3,
      some "<html><body><p>hi</p></body></html>", Option.none⟩ rfl rfl

end Symphony
